import Mathlib

/-!
Verification development for the p2p cluster handler server.

Two deployable variants of the server are embedded below as pure state
transformers over an association-list rendering of the JavaScript object
state:

* the clustered variant (`src/server.js`): devices of a school are routed
  into bounded clusters of at most 10 devices, each with up to 3 hosts and
  a frequency label chosen from a fixed channel list at creation;
* the flat variant (`src/unnamed/part_000`): one unbounded device list and
  one host triad per school.

Nondeterministic inputs of the source (wall-clock timestamps, the random
frequency channel index) are passed in as explicit oracle parameters.
JavaScript object assignment, lookup and deletion are modelled by
`setEntry`, `lookupEntry` and `deleteEntry` on insertion-ordered
association lists, matching the insertion-order iteration of JS objects.
-/

set_option linter.unusedVariables false

/-- Configuration constant from the source: at most 10 devices per cluster. -/
def MAX_DEVICES_PER_CLUSTER : Nat := 10

/-- Configuration constant from the source: at most 3 hosts per cluster. -/
def MAX_HOSTS_PER_CLUSTER : Nat := 3

/-- The fixed WiFi 5GHz frequency channel list (in MHz) from the source. -/
def FREQUENCY_CHANNELS : List Nat :=
  [5180, 5200, 5220, 5240, 5260, 5280, 5300, 5320,
   5500, 5520, 5540, 5560, 5580, 5600, 5620, 5640,
   5660, 5680, 5700, 5720, 5745, 5765, 5785, 5805, 5825]

theorem FREQUENCY_CHANNELS_length : FREQUENCY_CHANNELS.length = 25 := rfl

/-- The source draws `FREQUENCY_CHANNELS[Math.floor(Math.random() * 25)]`;
the random index (always in `[0, 25)`) is passed in as a `Fin 25` oracle. -/
def getRandomFrequency (ri : Fin 25) : Nat :=
  FREQUENCY_CHANNELS.get (Fin.cast FREQUENCY_CHANNELS_length.symm ri)

/-! ### Decimal rendering of naturals

The source builds cluster names with the template string
`schoolCode_clusterNumber`, rendering the cluster number in decimal.
`natStr` is a structurally recursive decimal renderer (fuel = the number
itself, which bounds the digit count); `digitsVal` is its left inverse,
which yields injectivity of cluster names in the number argument. -/

def natStrCore : Nat → Nat → List Char
  | _, 0 => []
  | 0, _ + 1 => []
  | fuel + 1, n + 1 => natStrCore fuel ((n + 1) / 10) ++ [Nat.digitChar ((n + 1) % 10)]

def natStr (n : Nat) : String :=
  if n = 0 then "0" else String.mk (natStrCore n n)

def digitsVal (l : List Char) : Nat :=
  l.foldl (fun acc ch => 10 * acc + (ch.toNat - 48)) 0

lemma digitsVal_append_singleton (l : List Char) (ch : Char) :
    digitsVal (l ++ [ch]) = 10 * digitsVal l + (ch.toNat - 48) := by
  simp [digitsVal, List.foldl_append]

lemma digitChar_val (d : Nat) (h : d < 10) : (Nat.digitChar d).toNat - 48 = d := by
  have : ∀ e < 10, (Nat.digitChar e).toNat - 48 = e := by decide
  exact this d h

lemma digitsVal_natStrCore : ∀ fuel n, n ≤ fuel → digitsVal (natStrCore fuel n) = n := by
  intro fuel
  induction fuel with
  | zero =>
    intro n hn
    interval_cases n
    simp [natStrCore, digitsVal]
  | succ f ih =>
    intro n hn
    match n with
    | 0 => simp [natStrCore, digitsVal]
    | m + 1 =>
      have hdiv : (m + 1) / 10 ≤ f := by
        have : (m + 1) / 10 < m + 1 := Nat.div_lt_self (by omega) (by omega)
        omega
      rw [natStrCore, digitsVal_append_singleton, ih _ hdiv,
        digitChar_val _ (Nat.mod_lt _ (by omega))]
      omega

lemma digitsVal_natStr (n : Nat) : digitsVal (natStr n).data = n := by
  by_cases h : n = 0
  · subst h; decide
  · rw [natStr, if_neg h]
    exact digitsVal_natStrCore n n le_rfl

lemma natStr_injective : Function.Injective natStr := by
  intro a b h
  have := congrArg (fun s => digitsVal s.data) h
  simpa [digitsVal_natStr] using this

/-- Cluster name template from the source: `schoolCode_clusterNumber`. -/
def clusterNameOf (c : String) (n : Nat) : String :=
  c ++ "_" ++ natStr n

lemma clusterNameOf_inj {c : String} {i j : Nat} (h : clusterNameOf c i = clusterNameOf c j) :
    i = j := by
  have hd := congrArg String.data h
  simp only [clusterNameOf, String.data_append] at hd
  have hdata := List.append_cancel_left hd
  have := congrArg digitsVal hdata
  rwa [digitsVal_natStr, digitsVal_natStr] at this

/-! ### Association lists with JS object semantics -/

/-- Keyed lookup: first entry with the given key, like JS property access. -/
def lookupEntry {β : Type} (k : String) : List (String × β) → Option β
  | [] => none
  | q :: rest => if q.1 = k then some q.2 else lookupEntry k rest

/-- Keyed assignment, like `obj[k] = v` in JS: replace in place when the key
is present (preserving entry order), append otherwise. -/
def setEntry {β : Type} (k : String) (v : β) (l : List (String × β)) : List (String × β) :=
  if (lookupEntry k l).isSome then l.map (fun q => if q.1 = k then (k, v) else q)
  else l ++ [(k, v)]

/-- Keyed removal, like `delete obj[k]` in JS. -/
def deleteEntry {β : Type} (k : String) (l : List (String × β)) : List (String × β) :=
  l.filter (fun q => q.1 != k)

section AssocLemmas

variable {β : Type} {k k' : String} {v v' w : β} {l : List (String × β)} {q : String × β}

lemma lookupEntry_nil : lookupEntry (β := β) k [] = none := rfl

lemma lookupEntry_cons {p : String × β} {rest : List (String × β)} :
    lookupEntry k (p :: rest) = if p.1 = k then some p.2 else lookupEntry k rest := rfl

lemma lookupEntry_append {l1 l2 : List (String × β)} :
    lookupEntry k (l1 ++ l2) = (lookupEntry k l1).or (lookupEntry k l2) := by
  induction l1 with
  | nil => simp [lookupEntry_nil]
  | cons p rest ih =>
    by_cases hp : p.1 = k <;> simp [lookupEntry_cons, hp, ih]

lemma lookupEntry_isSome_iff :
    (lookupEntry k l).isSome = true ↔ ∃ v : β, (k, v) ∈ l := by
  induction l with
  | nil => simp [lookupEntry_nil]
  | cons p rest ih =>
    by_cases h : p.1 = k
    · simp only [lookupEntry_cons, if_pos h, Option.isSome_some, true_iff]
      exact ⟨p.2, by rw [← h]; exact List.mem_cons_self _ _⟩
    · simp only [lookupEntry_cons, if_neg h, ih]
      constructor
      · rintro ⟨v, hv⟩; exact ⟨v, List.mem_cons_of_mem _ hv⟩
      · rintro ⟨v, hv⟩
        rcases List.mem_cons.mp hv with heq | hm
        · exact absurd (congrArg Prod.fst heq.symm) h
        · exact ⟨v, hm⟩

lemma mem_of_lookupEntry (h : lookupEntry k l = some v) : (k, v) ∈ l := by
  induction l with
  | nil => simp [lookupEntry_nil] at h
  | cons p rest ih =>
    by_cases hp : p.1 = k
    · rw [lookupEntry_cons, if_pos hp] at h
      injection h with h2
      have hpq : p = (k, v) := by
        obtain ⟨p1, p2⟩ := p
        simp only at hp h2
        rw [hp, h2]
      rw [← hpq]
      exact List.mem_cons_self _ _
    · rw [lookupEntry_cons, if_neg hp] at h
      exact List.mem_cons_of_mem _ (ih h)

lemma lookupEntry_eq_none_iff :
    lookupEntry k l = none ↔ ∀ v : β, (k, v) ∉ l := by
  constructor
  · intro h v hv
    have hs : (lookupEntry k l).isSome = true := lookupEntry_isSome_iff.mpr ⟨v, hv⟩
    rw [h] at hs
    simp at hs
  · intro h
    cases hl : lookupEntry k l with
    | none => rfl
    | some v => exact absurd (mem_of_lookupEntry hl) (h v)

lemma lookupEntry_replace_self (hw : (lookupEntry k l).isSome) :
    lookupEntry k (l.map (fun q => if q.1 = k then (k, v) else q)) = some v := by
  induction l with
  | nil => simp [lookupEntry_nil] at hw
  | cons p rest ih =>
    by_cases hp : p.1 = k
    · simp [lookupEntry_cons, hp]
    · rw [lookupEntry_cons, if_neg hp] at hw
      simpa [lookupEntry_cons, hp] using ih hw

lemma lookupEntry_replace_ne (h : k' ≠ k) :
    lookupEntry k' (l.map (fun q => if q.1 = k then (k, v) else q)) = lookupEntry k' l := by
  induction l with
  | nil => rfl
  | cons p rest ih =>
    by_cases hp : p.1 = k
    · have hne : ¬ (k = k') := fun he => h he.symm
      simp [lookupEntry_cons, hp, hne, ih]
    · by_cases hpk : p.1 = k'
      · simp only [List.map_cons, if_neg hp, lookupEntry_cons, if_pos hpk]
      · simp only [List.map_cons, if_neg hp, lookupEntry_cons, if_neg hpk, ih]

lemma lookupEntry_setEntry_self : lookupEntry k (setEntry k v l) = some v := by
  rw [setEntry]
  by_cases h : (lookupEntry k l).isSome
  · rw [if_pos h]
    exact lookupEntry_replace_self h
  · rw [if_neg h, lookupEntry_append]
    rw [Option.not_isSome_iff_eq_none] at h
    simp [h, lookupEntry_cons, lookupEntry_nil]

lemma lookupEntry_setEntry_ne (h : k' ≠ k) :
    lookupEntry k' (setEntry k v l) = lookupEntry k' l := by
  rw [setEntry]
  by_cases hs : (lookupEntry k l).isSome
  · rw [if_pos hs]
    exact lookupEntry_replace_ne h
  · rw [if_neg hs, lookupEntry_append]
    have hne : ¬ (k = k') := fun he => h he.symm
    simp [lookupEntry_cons, lookupEntry_nil, hne]

lemma mem_setEntry (h : q ∈ setEntry k v l) : q = (k, v) ∨ (q ∈ l ∧ q.1 ≠ k) := by
  rw [setEntry] at h
  by_cases hs : (lookupEntry k l).isSome
  · rw [if_pos hs] at h
    obtain ⟨p, hp, hpq⟩ := List.mem_map.mp h
    by_cases hpk : p.1 = k
    · rw [if_pos hpk] at hpq; left; exact hpq.symm
    · rw [if_neg hpk] at hpq; right; exact ⟨hpq ▸ hp, hpq ▸ hpk⟩
  · rw [if_neg hs] at h
    rcases List.mem_append.mp h with hm | hm
    · by_cases hqk : q.1 = k
      · exfalso
        rw [Option.not_isSome_iff_eq_none, lookupEntry_eq_none_iff] at hs
        exact hs q.2 (by rw [← hqk]; exact hm)
      · right; exact ⟨hm, hqk⟩
    · left; simpa using hm

lemma setEntry_of_none (h : lookupEntry k l = none) : setEntry k v l = l ++ [(k, v)] := by
  rw [setEntry, if_neg (by simp [h])]

lemma setEntry_of_isSome (h : (lookupEntry k l).isSome) :
    setEntry k v l = l.map (fun q => if q.1 = k then (k, v) else q) := by
  rw [setEntry, if_pos h]

lemma lookupEntry_deleteEntry_self : lookupEntry k (deleteEntry k l) = none := by
  rw [lookupEntry_eq_none_iff]
  intro v hv
  have := List.mem_filter.mp hv
  simp at this

lemma lookupEntry_deleteEntry_ne (h : k' ≠ k) :
    lookupEntry k' (deleteEntry k l) = lookupEntry k' l := by
  induction l with
  | nil => rfl
  | cons p rest ih =>
    by_cases hp : p.1 = k
    · have hne : ¬ (p.1 = k') := by rw [hp]; exact fun he => h he.symm
      rw [deleteEntry, List.filter_cons, if_neg (by simp [hp])]
      rw [lookupEntry_cons, if_neg hne]
      exact ih
    · rw [deleteEntry, List.filter_cons, if_pos (by simp [hp])]
      rw [lookupEntry_cons, lookupEntry_cons]
      by_cases hpk : p.1 = k'
      · simp [hpk]
      · rw [if_neg hpk, if_neg hpk]
        exact ih

lemma mem_deleteEntry (h : q ∈ deleteEntry k l) : q ∈ l ∧ q.1 ≠ k := by
  have := List.mem_filter.mp h
  simpa using this

lemma deleteEntry_sublist : List.Sublist (deleteEntry k l) l :=
  List.filter_sublist l

end AssocLemmas

/-! ### Clustered variant (`src/server.js`): data model -/

/-- Device record `{deviceId, registeredAt}`; the registration timestamp is
the `now` oracle value of the placing call. -/
structure Device where
  deviceId : String
  registeredAt : Nat
deriving DecidableEq

/-- Cluster record `{clusterNumber, devices, hosts, frequency, createdAt}`. -/
structure Cluster where
  clusterNumber : Nat
  devices : List Device
  hosts : List String
  frequency : Nat
  createdAt : Nat
deriving DecidableEq

/-- School record `{clusters, totalDevices, lastClusterNumber}`; `clusters`
is an insertion-ordered association list keyed by cluster name.
`totalDevices` is an integer because the JS counter is a plain number that
is both incremented and decremented. -/
structure School where
  clusters : List (String × Cluster)
  totalDevices : Int
  lastClusterNumber : Nat
deriving DecidableEq

/-- The top-level in-memory state: schoolCode-keyed map of schools. -/
abbrev SchoolData := List (String × School)

def emptySchool : School :=
  { clusters := [], totalDevices := 0, lastClusterNumber := 0 }

/-- Error kinds surfaced by the HTTP layer. -/
inductive ApiError where
  | validation
  | notFoundSchool
  | notFoundCluster
deriving DecidableEq

/-- The deviceId projection of a cluster's device list, in arrival order. -/
def clusterIds (cl : Cluster) : List String :=
  cl.devices.map Device.deviceId

/-! ### Clustered variant: the placement resolver (`findOrCreateCluster`) -/

/-- School initialization on first sighting of a school code
(`if (!schoolData[schoolCode]) schoolData[schoolCode] = {...}`). -/
def initSchool (sd : SchoolData) (c : String) : SchoolData :=
  if (lookupEntry c sd).isSome then sd else setEntry c emptySchool sd

/-- The school object subsequently read back (`schoolData[schoolCode]`). -/
def theSchool (sd : SchoolData) (c : String) : School :=
  (lookupEntry c sd).getD emptySchool

/-- First pass of the resolver: scan clusters in insertion order for one
whose device list already contains the device. -/
def findDeviceCluster (clusters : List (String × Cluster)) (d : String) :
    Option (String × Cluster) :=
  clusters.find? (fun q => (q.2.devices.find? (fun dev => dev.deviceId == d)).isSome)

/-- Second pass: first cluster, in insertion order, with spare capacity. -/
def findSpaceCluster (clusters : List (String × Cluster)) : Option (String × Cluster) :=
  clusters.find? (fun q => q.2.devices.length < MAX_DEVICES_PER_CLUSTER)

/-- A fresh cluster as built by the source when all clusters are full. -/
def newCluster (s : School) (ri : Fin 25) (now : Nat) : Cluster :=
  { clusterNumber := s.lastClusterNumber + 1, devices := [], hosts := [],
    frequency := getRandomFrequency ri, createdAt := now }

/-- The school after appending a fresh cluster and bumping `lastClusterNumber`. -/
def addCluster (c : String) (s : School) (ri : Fin 25) (now : Nat) : School :=
  { s with
    clusters := setEntry (clusterNameOf c (s.lastClusterNumber + 1)) (newCluster s ri now) s.clusters,
    lastClusterNumber := s.lastClusterNumber + 1 }

/-- Result of `findOrCreateCluster`: the (possibly school-initialized and
cluster-extended) state, the resolved school object, the resolved cluster
name and object, and the `isExisting` flag. -/
structure FindResult where
  data : SchoolData
  school : School
  clusterName : String
  cluster : Cluster
  isExisting : Bool
deriving DecidableEq

/-- The resolver `findOrCreateCluster(schoolCode, deviceId)` from the source: initialize
the school if needed; return the cluster already holding the device, else
the first cluster with space, else a newly created cluster. -/
def findOrCreateCluster (sd : SchoolData) (c d : String) (ri : Fin 25) (now : Nat) :
    FindResult :=
  match findDeviceCluster (theSchool (initSchool sd c) c).clusters d with
  | some q => ⟨initSchool sd c, theSchool (initSchool sd c) c, q.1, q.2, true⟩
  | none =>
    match findSpaceCluster (theSchool (initSchool sd c) c).clusters with
    | some q => ⟨initSchool sd c, theSchool (initSchool sd c) c, q.1, q.2, false⟩
    | none =>
      ⟨setEntry c (addCluster c (theSchool (initSchool sd c) c) ri now) (initSchool sd c),
       addCluster c (theSchool (initSchool sd c) c) ri now,
       clusterNameOf c ((theSchool (initSchool sd c) c).lastClusterNumber + 1),
       newCluster (theSchool (initSchool sd c) c) ri now,
       false⟩

/-! ### Clustered variant: the `POST /api/get-hosts` handler -/

/-- A cluster after the handler pushes a new device record and, when fewer
than `MAX_HOSTS_PER_CLUSTER` hosts exist, the device onto the host list. -/
def insertDevice (cl : Cluster) (d : String) (now : Nat) : Cluster :=
  { cl with
    devices := cl.devices ++ [⟨d, now⟩],
    hosts := if cl.hosts.length < MAX_HOSTS_PER_CLUSTER then cl.hosts ++ [d] else cl.hosts }

/-- The resolved school after the in-place mutation of the resolved cluster
and the `totalDevices += 1` update. -/
def schoolAfterInsert (s : School) (name : String) (cl : Cluster) (d : String) (now : Nat) :
    School :=
  { s with
    clusters := setEntry name (insertDevice cl d now) s.clusters,
    totalDevices := s.totalDevices + 1 }

/-- State, school and cluster after the `if (!isExisting) { ... }` block. -/
def applyNewDevice (r : FindResult) (c d : String) (now : Nat) :
    SchoolData × School × Cluster :=
  if r.isExisting then (r.data, r.school, r.cluster)
  else
    (setEntry c (schoolAfterInsert r.school r.clusterName r.cluster d now) r.data,
     schoolAfterInsert r.school r.clusterName r.cluster d now,
     insertDevice r.cluster d now)

/-- JS `x || null` on an optional host slot: `undefined` and the empty
string both collapse to `null`. -/
def jsOrNull (o : Option String) : Option String :=
  match o with
  | some s => if s = "" then none else some s
  | none => none

/-- The JSON payload of a successful `POST /api/get-hosts` call. Host slots
that the source leaves unassigned (JS `undefined`) are `none`. -/
structure HostsResponse where
  success : Bool
  schoolCode : String
  clusterName : String
  clusterNumber : Nat
  deviceId : String
  positionInCluster : Nat
  totalDevicesInCluster : Nat
  totalDevicesInSchool : Int
  maxDevicesPerCluster : Nat
  frequency : Nat
  hostDeviceId : Option String
  host2DeviceId : Option String
  host3DeviceId : Option String
  role : String
  message : String
  clusterHosts : Option String × Option String × Option String
  clusterDevices : List String
deriving DecidableEq

/-- Response composer: common fields, then the role-indexed branch on the
0-based position of the device in the resolved cluster's device list. -/
def mkResponse (c d name : String) (school : School) (cluster : Cluster) : HostsResponse :=
  let i := cluster.devices.findIdx (fun dev => dev.deviceId == d)
  let base : HostsResponse :=
    { success := true
      schoolCode := c
      clusterName := name
      clusterNumber := cluster.clusterNumber
      deviceId := d
      positionInCluster := i + 1
      totalDevicesInCluster := cluster.devices.length
      totalDevicesInSchool := school.totalDevices
      maxDevicesPerCluster := MAX_DEVICES_PER_CLUSTER
      frequency := cluster.frequency
      hostDeviceId := none
      host2DeviceId := none
      host3DeviceId := none
      role := ""
      message := ""
      clusterHosts :=
        (jsOrNull (cluster.hosts.get? 0), jsOrNull (cluster.hosts.get? 1),
         jsOrNull (cluster.hosts.get? 2))
      clusterDevices := cluster.devices.map Device.deviceId }
  if i = 0 then
    { base with hostDeviceId := some d, role := "host1",
                message := "You are the primary host for cluster " ++ name }
  else if i = 1 then
    { base with hostDeviceId := cluster.hosts.get? 0, host2DeviceId := some d,
                role := "host2",
                message := "You are the secondary host for cluster " ++ name }
  else if i = 2 then
    { base with hostDeviceId := cluster.hosts.get? 0, host2DeviceId := cluster.hosts.get? 1,
                host3DeviceId := some d, role := "host3",
                message := "You are the tertiary host for cluster " ++ name }
  else
    { base with hostDeviceId := cluster.hosts.get? 0, host2DeviceId := cluster.hosts.get? 1,
                host3DeviceId := cluster.hosts.get? 2, role := "client",
                message := "You are a client device in cluster " ++ name }

/-- Handler for `POST /api/get-hosts` (clustered variant): validate, resolve, mutate
when the device is new, and compose the response. -/
def postGetHosts (sd : SchoolData) (c d : String) (ri : Fin 25) (now : Nat) :
    Except ApiError (SchoolData × HostsResponse) :=
  if c = "" ∨ d = "" then Except.error ApiError.validation
  else
    Except.ok
      ((applyNewDevice (findOrCreateCluster sd c d ri now) c d now).1,
       mkResponse c d (findOrCreateCluster sd c d ri now).clusterName
         (applyNewDevice (findOrCreateCluster sd c d ri now) c d now).2.1
         (applyNewDevice (findOrCreateCluster sd c d ri now) c d now).2.2)

/-! ### Clustered variant: query and reset endpoints -/

/-- Per-cluster block of the school summary (`GET /api/school/:schoolCode`). -/
structure ClusterSummary where
  clusterNumber : Nat
  totalDevices : Nat
  hosts : List String
  devices : List String
  isFull : Bool
  createdAt : Nat
  frequency : Nat
deriving DecidableEq

/-- Payload of `GET /api/school/:schoolCode`. -/
structure SchoolSummary where
  success : Bool
  schoolCode : String
  totalDevices : Int
  totalClusters : Nat
  lastClusterNumber : Nat
  maxDevicesPerCluster : Nat
  clusters : List (String × ClusterSummary)
deriving DecidableEq

/-- Endpoint `GET /api/school/:schoolCode`: 404 when the school is unknown, else the
aggregate summary. -/
def getSchool (sd : SchoolData) (c : String) : Except ApiError SchoolSummary :=
  match lookupEntry c sd with
  | none => Except.error ApiError.notFoundSchool
  | some school =>
    Except.ok
      { success := true
        schoolCode := c
        totalDevices := school.totalDevices
        totalClusters := school.clusters.length
        lastClusterNumber := school.lastClusterNumber
        maxDevicesPerCluster := MAX_DEVICES_PER_CLUSTER
        clusters := school.clusters.map (fun q =>
          (q.1,
           { clusterNumber := q.2.clusterNumber
             totalDevices := q.2.devices.length
             hosts := q.2.hosts
             devices := q.2.devices.map Device.deviceId
             isFull := MAX_DEVICES_PER_CLUSTER ≤ q.2.devices.length
             createdAt := q.2.createdAt
             frequency := q.2.frequency })) }

/-- Payload of `GET /api/school/:schoolCode/cluster/:clusterNumber`. -/
structure ClusterInfo where
  success : Bool
  schoolCode : String
  clusterName : String
  clusterNumber : Nat
  totalDevices : Nat
  maxDevices : Nat
  isFull : Bool
  hosts : List String
  devices : List Device
  createdAt : Nat
  frequency : Nat
deriving DecidableEq

/-- Endpoint `GET /api/school/:schoolCode/cluster/:clusterNumber`; the cluster-number
path parameter is a raw string that the source splices into the cluster
name template. -/
def getCluster (sd : SchoolData) (c numParam : String) : Except ApiError ClusterInfo :=
  match lookupEntry c sd with
  | none => Except.error ApiError.notFoundSchool
  | some school =>
    match lookupEntry (c ++ "_" ++ numParam) school.clusters with
    | none => Except.error ApiError.notFoundCluster
    | some cluster =>
      Except.ok
        { success := true
          schoolCode := c
          clusterName := c ++ "_" ++ numParam
          clusterNumber := cluster.clusterNumber
          totalDevices := cluster.devices.length
          maxDevices := MAX_DEVICES_PER_CLUSTER
          isFull := MAX_DEVICES_PER_CLUSTER ≤ cluster.devices.length
          hosts := cluster.hosts
          devices := cluster.devices
          createdAt := cluster.createdAt
          frequency := cluster.frequency }

/-- Endpoint `DELETE /api/school/:schoolCode`: drop the whole school entry, 404 when
absent (the state is untouched on the error path). -/
def resetSchool (sd : SchoolData) (c : String) : Except ApiError SchoolData :=
  if (lookupEntry c sd).isSome then Except.ok (deleteEntry c sd)
  else Except.error ApiError.notFoundSchool

/-- Endpoint `DELETE /api/school/:schoolCode/cluster/:clusterNumber`: subtract the
cluster's device count from `totalDevices`, then remove the cluster; 404
when the school or the cluster is absent. -/
def resetCluster (sd : SchoolData) (c numParam : String) : Except ApiError SchoolData :=
  match lookupEntry c sd with
  | none => Except.error ApiError.notFoundSchool
  | some school =>
    match lookupEntry (c ++ "_" ++ numParam) school.clusters with
    | none => Except.error ApiError.notFoundCluster
    | some cluster =>
      Except.ok
        (setEntry c
          { school with
            totalDevices := school.totalDevices - cluster.devices.length,
            clusters := deleteEntry (c ++ "_" ++ numParam) school.clusters }
          sd)

/-- States reachable from the empty store through the mutating endpoints of
the clustered variant (queries do not mutate; failed calls return an error
without touching the state). -/
inductive Reachable : SchoolData → Prop where
  | empty : Reachable []
  | place {sd c d ri now sd' resp} : Reachable sd →
      postGetHosts sd c d ri now = Except.ok (sd', resp) → Reachable sd'
  | resetS {sd c sd'} : Reachable sd →
      resetSchool sd c = Except.ok sd' → Reachable sd'
  | resetC {sd c numParam sd'} : Reachable sd →
      resetCluster sd c numParam = Except.ok sd' → Reachable sd'

/-! ### Flat variant (`src/unnamed/part_000`): data model and handler -/

/-- Flat-variant school record: one device list, one host triad. -/
structure FlatSchool where
  devices : List Device
  hosts : List String
deriving DecidableEq

abbrev FlatData := List (String × FlatSchool)

def emptyFlatSchool : FlatSchool := { devices := [], hosts := [] }

/-- Flat-variant payload of a successful `POST /api/get-hosts` call. -/
structure FlatResponse where
  success : Bool
  schoolCode : String
  deviceId : String
  position : Nat
  totalDevices : Nat
  hostDeviceId : Option String
  host2DeviceId : Option String
  host3DeviceId : Option String
  role : String
  message : String
  hosts : Option String × Option String × Option String
deriving DecidableEq

/-- Flat-variant school initialization on first sighting. -/
def flatInit (fd : FlatData) (c : String) : FlatData :=
  if (lookupEntry c fd).isSome then fd else setEntry c emptyFlatSchool fd

/-- The flat-variant school object read back after initialization. -/
def theFlatSchool (fd : FlatData) (c : String) : FlatSchool :=
  (lookupEntry c fd).getD emptyFlatSchool

/-- Flat-variant push of a new device (and host while under the cap of 3). -/
def flatInsert (s : FlatSchool) (d : String) (now : Nat) : FlatSchool :=
  { devices := s.devices ++ [⟨d, now⟩],
    hosts := if s.hosts.length < 3 then s.hosts ++ [d] else s.hosts }

/-- Flat-variant response composer, keyed on the 0-based device index. -/
def mkFlatResponse (c d : String) (school : FlatSchool) : FlatResponse :=
  let i := school.devices.findIdx (fun dev => dev.deviceId == d)
  let base : FlatResponse :=
    { success := true
      schoolCode := c
      deviceId := d
      position := i + 1
      totalDevices := school.devices.length
      hostDeviceId := none
      host2DeviceId := none
      host3DeviceId := none
      role := ""
      message := ""
      hosts :=
        (jsOrNull (school.hosts.get? 0), jsOrNull (school.hosts.get? 1),
         jsOrNull (school.hosts.get? 2)) }
  if i = 0 then
    { base with hostDeviceId := some d, role := "host1",
                message := "You are the primary host" }
  else if i = 1 then
    { base with hostDeviceId := school.hosts.get? 0, host2DeviceId := some d,
                role := "host2", message := "You are the secondary host" }
  else if i = 2 then
    { base with hostDeviceId := school.hosts.get? 0, host2DeviceId := school.hosts.get? 1,
                host3DeviceId := some d, role := "host3",
                message := "You are the tertiary host" }
  else
    { base with hostDeviceId := school.hosts.get? 0, host2DeviceId := school.hosts.get? 1,
                host3DeviceId := school.hosts.get? 2, role := "client",
                message := "You are a client device" }

/-- Handler for `POST /api/get-hosts` (flat variant): the source checks
`findIndex(...) === -1` to decide whether to append the device, then
recomputes the index and composes the response. -/
def flatGetHosts (fd : FlatData) (c d : String) (now : Nat) :
    Except ApiError (FlatData × FlatResponse) :=
  if c = "" ∨ d = "" then Except.error ApiError.validation
  else
    match (theFlatSchool (flatInit fd c) c).devices.findIdx? (fun dev => dev.deviceId == d) with
    | some _ =>
      Except.ok (flatInit fd c, mkFlatResponse c d (theFlatSchool (flatInit fd c) c))
    | none =>
      Except.ok
        (setEntry c (flatInsert (theFlatSchool (flatInit fd c) c) d now) (flatInit fd c),
         mkFlatResponse c d (flatInsert (theFlatSchool (flatInit fd c) c) d now))

/-- Endpoint `DELETE /api/school/:schoolCode` (flat variant). -/
def flatResetSchool (fd : FlatData) (c : String) : Except ApiError FlatData :=
  if (lookupEntry c fd).isSome then Except.ok (deleteEntry c fd)
  else Except.error ApiError.notFoundSchool

/-- States reachable from the empty store in the flat variant. -/
inductive FlatReachable : FlatData → Prop where
  | empty : FlatReachable []
  | place {fd c d now fd' resp} : FlatReachable fd →
      flatGetHosts fd c d now = Except.ok (fd', resp) → FlatReachable fd'
  | resetS {fd c fd'} : FlatReachable fd →
      flatResetSchool fd c = Except.ok fd' → FlatReachable fd'

/-! ### Association-list lemmas that need distinct keys -/

section AssocNodup

variable {β γ : Type} {k : String} {v v' : β} {l : List (String × β)}

lemma replace_map_id (h : ∀ q ∈ l, q.1 ≠ k) :
    l.map (fun q => if q.1 = k then (k, v) else q) = l := by
  induction l with
  | nil => rfl
  | cons p rest ih =>
    rw [List.map_cons, if_neg (h p (List.mem_cons_self _ _)),
      ih (fun q hq => h q (List.mem_cons_of_mem _ hq))]

lemma deleteEntry_eq_self (h : ∀ q ∈ l, q.1 ≠ k) : deleteEntry k l = l := by
  rw [deleteEntry, List.filter_eq_self]
  intro q hq
  simpa using h q hq

lemma keys_cons_nodup {p : String × β} {rest : List (String × β)}
    (hnd : ((p :: rest).map Prod.fst).Nodup) :
    p.1 ∉ rest.map Prod.fst ∧ (rest.map Prod.fst).Nodup := by
  rw [List.map_cons] at hnd
  exact List.nodup_cons.mp hnd

lemma lookupEntry_of_mem_nodup (hnd : (l.map Prod.fst).Nodup) (hm : (k, v) ∈ l) :
    lookupEntry k l = some v := by
  induction l with
  | nil => simp at hm
  | cons p rest ih =>
    have hnd' := keys_cons_nodup hnd
    rcases List.mem_cons.mp hm with heq | hmr
    · rw [← heq, lookupEntry_cons, if_pos rfl]
    · have hp : p.1 ≠ k := by
        intro hpk
        exact hnd'.1 (by rw [hpk]; exact (List.mem_map).mpr ⟨(k, v), hmr, rfl⟩)
      rw [lookupEntry_cons, if_neg hp]
      exact ih hnd'.2 hmr

lemma sum_map_replace (f : β → Int) (hnd : (l.map Prod.fst).Nodup)
    (hlk : lookupEntry k l = some v) :
    ((l.map (fun q => if q.1 = k then (k, v') else q)).map (fun q => f q.2)).sum
      = (l.map (fun q => f q.2)).sum - f v + f v' := by
  induction l with
  | nil => simp [lookupEntry_nil] at hlk
  | cons p rest ih =>
    have hnd' := keys_cons_nodup hnd
    by_cases hp : p.1 = k
    · rw [lookupEntry_cons, if_pos hp] at hlk
      injection hlk with hv
      have hrest : ∀ q ∈ rest, q.1 ≠ k := by
        intro q hq hqk
        exact hnd'.1 (by rw [hp, ← hqk]; exact (List.mem_map).mpr ⟨q, hq, rfl⟩)
      rw [List.map_cons, if_pos hp, replace_map_id hrest]
      simp only [List.map_cons, List.sum_cons, hv]
      omega
    · rw [lookupEntry_cons, if_neg hp] at hlk
      rw [List.map_cons, if_neg hp]
      simp only [List.map_cons, List.sum_cons]
      rw [ih hnd'.2 hlk]
      omega

lemma sum_map_setEntry (f : β → Int) (hnd : (l.map Prod.fst).Nodup)
    (hlk : lookupEntry k l = some v) :
    ((setEntry k v' l).map (fun q => f q.2)).sum
      = (l.map (fun q => f q.2)).sum - f v + f v' := by
  rw [setEntry_of_isSome (by simp [hlk])]
  exact sum_map_replace f hnd hlk

lemma map_snd_replace (g : β → γ) (hnd : (l.map Prod.fst).Nodup)
    (hlk : lookupEntry k l = some v) (hg : g v' = g v) :
    (l.map (fun q => if q.1 = k then (k, v') else q)).map (fun q => g q.2)
      = l.map (fun q => g q.2) := by
  induction l with
  | nil => rfl
  | cons p rest ih =>
    have hnd' := keys_cons_nodup hnd
    by_cases hp : p.1 = k
    · rw [lookupEntry_cons, if_pos hp] at hlk
      injection hlk with hv
      have hrest : ∀ q ∈ rest, q.1 ≠ k := by
        intro q hq hqk
        exact hnd'.1 (by rw [hp, ← hqk]; exact (List.mem_map).mpr ⟨q, hq, rfl⟩)
      rw [List.map_cons, if_pos hp, replace_map_id hrest]
      simp [hg, hv]
    · rw [lookupEntry_cons, if_neg hp] at hlk
      rw [List.map_cons, if_neg hp, List.map_cons, List.map_cons, ih hnd'.2 hlk]

lemma map_snd_setEntry (g : β → γ) (hnd : (l.map Prod.fst).Nodup)
    (hlk : lookupEntry k l = some v) (hg : g v' = g v) :
    (setEntry k v' l).map (fun q => g q.2) = l.map (fun q => g q.2) := by
  rw [setEntry_of_isSome (by simp [hlk])]
  exact map_snd_replace g hnd hlk hg

lemma sum_map_deleteEntry (f : β → Int) (hnd : (l.map Prod.fst).Nodup)
    (hlk : lookupEntry k l = some v) :
    ((deleteEntry k l).map (fun q => f q.2)).sum = (l.map (fun q => f q.2)).sum - f v := by
  induction l with
  | nil => simp [lookupEntry_nil] at hlk
  | cons p rest ih =>
    have hnd' := keys_cons_nodup hnd
    by_cases hp : p.1 = k
    · rw [lookupEntry_cons, if_pos hp] at hlk
      injection hlk with hv
      have hrest : ∀ q ∈ rest, q.1 ≠ k := by
        intro q hq hqk
        exact hnd'.1 (by rw [hp, ← hqk]; exact (List.mem_map).mpr ⟨q, hq, rfl⟩)
      rw [deleteEntry, List.filter_cons, if_neg (by simp [hp])]
      rw [← deleteEntry, deleteEntry_eq_self hrest]
      simp only [List.map_cons, List.sum_cons, hv]
      omega
    · rw [lookupEntry_cons, if_neg hp] at hlk
      rw [deleteEntry, List.filter_cons, if_pos (by simp [hp]), ← deleteEntry]
      simp only [List.map_cons, List.sum_cons]
      rw [ih hnd'.2 hlk]
      omega

lemma map_snd_deleteEntry_sublist (g : β → γ) :
    List.Sublist ((deleteEntry k l).map (fun q => g q.2)) (l.map (fun q => g q.2)) :=
  List.Sublist.map _ deleteEntry_sublist

end AssocNodup

/-! ### Well-formedness invariant of the clustered state -/

/-- Per-cluster invariant: the host list is the three-element prefix of the
device-id list, capacity is respected, the frequency label is from the
channel list, and device ids are non-empty. -/
structure ClusterWF (cl : Cluster) : Prop where
  hostsInv : cl.hosts = (clusterIds cl).take 3
  devicesLe : cl.devices.length ≤ MAX_DEVICES_PER_CLUSTER
  freqMem : cl.frequency ∈ FREQUENCY_CHANNELS
  idsNe : ∀ dev ∈ cl.devices, dev.deviceId ≠ ""

/-- Per-school invariant of the clustered variant. -/
structure SchoolWF (c : String) (s : School) : Prop where
  clustersWF : ∀ q ∈ s.clusters, ClusterWF q.2
  countEq : s.totalDevices = (s.clusters.map (fun q => (q.2.devices.length : Int))).sum
  numbersLe : ∀ q ∈ s.clusters, q.2.clusterNumber ≤ s.lastClusterNumber
  namesEq : ∀ q ∈ s.clusters, q.1 = clusterNameOf c q.2.clusterNumber
  numbersSorted : (s.clusters.map (fun q => q.2.clusterNumber)).Pairwise (· < ·)

/-- Whole-state invariant of the clustered variant. -/
def StateWF (sd : SchoolData) : Prop := ∀ p ∈ sd, SchoolWF p.1 p.2

lemma SchoolWF.keysNodup {c : String} {s : School} (h : SchoolWF c s) :
    (s.clusters.map Prod.fst).Nodup := by
  have hmap : s.clusters.map Prod.fst
      = (s.clusters.map (fun q => q.2.clusterNumber)).map (clusterNameOf c) := by
    rw [List.map_map]
    exact List.map_congr_left (fun q hq => h.namesEq q hq)
  rw [hmap]
  exact List.Nodup.map (fun i j hij => clusterNameOf_inj hij)
    (h.numbersSorted.imp (fun hij => Nat.ne_of_lt hij))

lemma emptySchool_wf (c : String) : SchoolWF c emptySchool := by
  refine ⟨?_, ?_, ?_, ?_, ?_⟩ <;> simp [emptySchool]

lemma StateWF.lookup {sd : SchoolData} {c : String} {s : School}
    (h : StateWF sd) (hl : lookupEntry c sd = some s) : SchoolWF c s :=
  h (c, s) (mem_of_lookupEntry hl)

lemma StateWF.setSchool {sd : SchoolData} {c : String} {s : School}
    (h : StateWF sd) (hs : SchoolWF c s) : StateWF (setEntry c s sd) := by
  intro p hp
  rcases mem_setEntry hp with heq | ⟨hm, _⟩
  · rw [heq]; exact hs
  · exact h p hm

lemma StateWF.init {sd : SchoolData} (h : StateWF sd) (c : String) :
    StateWF (initSchool sd c) := by
  unfold initSchool
  by_cases hs : (lookupEntry c sd).isSome
  · rwa [if_pos hs]
  · rw [if_neg hs]
    exact h.setSchool (emptySchool_wf c)

lemma lookup_initSchool_self (sd : SchoolData) (c : String) :
    lookupEntry c (initSchool sd c) = some (theSchool (initSchool sd c) c) := by
  cases hl : lookupEntry c sd with
  | some s => simp [initSchool, theSchool, hl]
  | none => simp [initSchool, theSchool, hl, lookupEntry_setEntry_self]

lemma lookup_initSchool_ne {sd : SchoolData} {c c' : String} (h : c' ≠ c) :
    lookupEntry c' (initSchool sd c) = lookupEntry c' sd := by
  rw [initSchool]
  by_cases hs : (lookupEntry c sd).isSome
  · rw [if_pos hs]
  · rw [if_neg hs]
    exact lookupEntry_setEntry_ne h

lemma initSchool_of_some {sd : SchoolData} {c : String} {s : School}
    (h : lookupEntry c sd = some s) : initSchool sd c = sd := by
  simp [initSchool, h]

lemma theSchool_of_some {sd : SchoolData} {c : String} {s : School}
    (h : lookupEntry c sd = some s) : theSchool sd c = s := by
  simp [theSchool, h]

lemma theSchool_initSchool_of_none {sd : SchoolData} {c : String}
    (h : lookupEntry c sd = none) : theSchool (initSchool sd c) c = emptySchool := by
  simp [initSchool, theSchool, h, lookupEntry_setEntry_self]

lemma SchoolWF.ofInit {sd : SchoolData} {c : String} (h : StateWF sd) :
    SchoolWF c (theSchool (initSchool sd c) c) :=
  (h.init c).lookup (lookup_initSchool_self sd c)

/-! ### Characterization of a successful placement call -/

/-- Exhaustive description of the state and response of a successful
`postGetHosts` call, split along the three resolver outcomes: device
already present, new device into the first cluster with space, new device
into a freshly created cluster. -/
def PlaceOutcome (sd : SchoolData) (c d : String) (ri : Fin 25) (now : Nat)
    (sd' : SchoolData) (resp : HostsResponse) : Prop :=
  let sd1 := initSchool sd c
  let S := theSchool sd1 c
  (∃ q, findDeviceCluster S.clusters d = some q ∧ sd' = sd1 ∧
     resp = mkResponse c d q.1 S q.2) ∨
  (findDeviceCluster S.clusters d = none ∧
    ((∃ q, findSpaceCluster S.clusters = some q ∧
        sd' = setEntry c (schoolAfterInsert S q.1 q.2 d now) sd1 ∧
        resp = mkResponse c d q.1 (schoolAfterInsert S q.1 q.2 d now)
          (insertDevice q.2 d now)) ∨
     (findSpaceCluster S.clusters = none ∧
        sd' = setEntry c
          (schoolAfterInsert (addCluster c S ri now)
            (clusterNameOf c (S.lastClusterNumber + 1)) (newCluster S ri now) d now)
          (setEntry c (addCluster c S ri now) sd1) ∧
        resp = mkResponse c d (clusterNameOf c (S.lastClusterNumber + 1))
          (schoolAfterInsert (addCluster c S ri now)
            (clusterNameOf c (S.lastClusterNumber + 1)) (newCluster S ri now) d now)
          (insertDevice (newCluster S ri now) d now))))

lemma place_cases {sd : SchoolData} {c d : String} {ri : Fin 25} {now : Nat}
    {sd' : SchoolData} {resp : HostsResponse}
    (h : postGetHosts sd c d ri now = Except.ok (sd', resp)) :
    c ≠ "" ∧ d ≠ "" ∧ PlaceOutcome sd c d ri now sd' resp := by
  by_cases hcd : c = "" ∨ d = ""
  · rw [postGetHosts, if_pos hcd] at h
    exact absurd h (by simp)
  · push_neg at hcd
    refine ⟨hcd.1, hcd.2, ?_⟩
    rw [postGetHosts, if_neg (by simp [hcd.1, hcd.2])] at h
    rw [PlaceOutcome]
    cases hdc : findDeviceCluster (theSchool (initSchool sd c) c).clusters d with
    | some q =>
      left
      rw [findOrCreateCluster, hdc] at h
      simp only [applyNewDevice, if_pos rfl] at h
      injection h with h2
      injection h2 with hsd hresp
      exact ⟨q, rfl, hsd.symm, hresp.symm⟩
    | none =>
      right
      refine ⟨rfl, ?_⟩
      cases hsp : findSpaceCluster (theSchool (initSchool sd c) c).clusters with
      | some q =>
        left
        rw [findOrCreateCluster, hdc, hsp] at h
        simp only [applyNewDevice, Bool.false_eq_true, if_neg] at h
        injection h with h2
        injection h2 with hsd hresp
        exact ⟨q, rfl, hsd.symm, hresp.symm⟩
      | none =>
        right
        rw [findOrCreateCluster, hdc, hsp] at h
        simp only [applyNewDevice, Bool.false_eq_true, if_neg] at h
        injection h with h2
        injection h2 with hsd hresp
        simp only [addCluster] at hsd hresp
        exact ⟨rfl, hsd.symm, hresp.symm⟩

/-! ### Preservation of the invariant -/

lemma getRandomFrequency_mem (ri : Fin 25) : getRandomFrequency ri ∈ FREQUENCY_CHANNELS := by
  rw [getRandomFrequency]
  apply List.get_mem

lemma newCluster_wf (s : School) (ri : Fin 25) (now : Nat) : ClusterWF (newCluster s ri now) := by
  refine ⟨?_, ?_, ?_, ?_⟩
  · simp [newCluster, clusterIds]
  · simp [newCluster, MAX_DEVICES_PER_CLUSTER]
  · exact getRandomFrequency_mem ri
  · simp [newCluster]

lemma clusterIds_insertDevice (cl : Cluster) (d : String) (now : Nat) :
    clusterIds (insertDevice cl d now) = clusterIds cl ++ [d] := by
  simp [clusterIds, insertDevice]

lemma devices_length_insertDevice (cl : Cluster) (d : String) (now : Nat) :
    (insertDevice cl d now).devices.length = cl.devices.length + 1 := by
  simp [insertDevice]

lemma clusterNumber_insertDevice (cl : Cluster) (d : String) (now : Nat) :
    (insertDevice cl d now).clusterNumber = cl.clusterNumber := rfl

lemma frequency_insertDevice (cl : Cluster) (d : String) (now : Nat) :
    (insertDevice cl d now).frequency = cl.frequency := rfl

lemma ClusterWF.insert {cl : Cluster} (h : ClusterWF cl)
    (hlen : cl.devices.length < MAX_DEVICES_PER_CLUSTER) {d : String} (hd : d ≠ "")
    (now : Nat) : ClusterWF (insertDevice cl d now) := by
  have hids : (clusterIds cl).length = cl.devices.length := by simp [clusterIds]
  have hhlen : cl.hosts.length = min 3 (clusterIds cl).length := by
    rw [h.hostsInv, List.length_take]
  refine ⟨?_, ?_, ?_, ?_⟩
  · rw [clusterIds_insertDevice]
    show (if cl.hosts.length < MAX_HOSTS_PER_CLUSTER then cl.hosts ++ [d] else cl.hosts)
      = (clusterIds cl ++ [d]).take 3
    by_cases hlt : cl.hosts.length < MAX_HOSTS_PER_CLUSTER
    · rw [if_pos hlt]
      rw [MAX_HOSTS_PER_CLUSTER] at hlt
      have hsmall : (clusterIds cl).length < 3 := by omega
      rw [List.take_of_length_le (by simp; omega), h.hostsInv,
        List.take_of_length_le (by omega)]
    · rw [if_neg hlt]
      rw [MAX_HOSTS_PER_CLUSTER] at hlt
      have hbig : 3 ≤ (clusterIds cl).length := by omega
      rw [List.take_append_of_le_length hbig, h.hostsInv]
  · rw [devices_length_insertDevice]
    rw [MAX_DEVICES_PER_CLUSTER] at hlen ⊢
    omega
  · rw [frequency_insertDevice]
    exact h.freqMem
  · intro dev hdev
    have hcase : dev ∈ cl.devices ∨ dev = ⟨d, now⟩ := by simpa [insertDevice] using hdev
    rcases hcase with hm | hm
    · exact h.idsNe dev hm
    · rw [hm]
      exact hd

lemma SchoolWF.afterInsert {c : String} {s : School} (h : SchoolWF c s)
    {name : String} {cl : Cluster} (hlk : lookupEntry name s.clusters = some cl)
    (hlen : cl.devices.length < MAX_DEVICES_PER_CLUSTER) {d : String} (hd : d ≠ "")
    (now : Nat) : SchoolWF c (schoolAfterInsert s name cl d now) := by
  have hnd := h.keysNodup
  have hmem : (name, cl) ∈ s.clusters := mem_of_lookupEntry hlk
  have hclwf : ClusterWF cl := h.clustersWF _ hmem
  refine ⟨?_, ?_, ?_, ?_, ?_⟩
  · intro q hq
    rcases mem_setEntry hq with heq | ⟨hm, _⟩
    · rw [heq]
      exact hclwf.insert hlen hd now
    · exact h.clustersWF q hm
  · show s.totalDevices + 1 = ((setEntry name (insertDevice cl d now) s.clusters).map
      (fun q => (q.2.devices.length : Int))).sum
    rw [sum_map_setEntry (fun cl => (cl.devices.length : Int)) hnd hlk]
    rw [devices_length_insertDevice]
    have := h.countEq
    push_cast
    omega
  · intro q hq
    show q.2.clusterNumber ≤ s.lastClusterNumber
    rcases mem_setEntry hq with heq | ⟨hm, _⟩
    · rw [heq]
      show (insertDevice cl d now).clusterNumber ≤ s.lastClusterNumber
      rw [clusterNumber_insertDevice]
      exact h.numbersLe _ hmem
    · exact h.numbersLe q hm
  · intro q hq
    rcases mem_setEntry hq with heq | ⟨hm, _⟩
    · rw [heq]
      show name = clusterNameOf c (insertDevice cl d now).clusterNumber
      rw [clusterNumber_insertDevice]
      exact h.namesEq _ hmem
    · exact h.namesEq q hm
  · show ((setEntry name (insertDevice cl d now) s.clusters).map
      (fun q => q.2.clusterNumber)).Pairwise (· < ·)
    rw [map_snd_setEntry Cluster.clusterNumber hnd hlk (clusterNumber_insertDevice cl d now)]
    exact h.numbersSorted

lemma lookup_newName_none {c : String} {s : School} (h : SchoolWF c s) :
    lookupEntry (clusterNameOf c (s.lastClusterNumber + 1)) s.clusters = none := by
  rw [lookupEntry_eq_none_iff]
  intro v hv
  have hname := h.namesEq _ hv
  have hle := h.numbersLe _ hv
  simp only at hname hle
  have := clusterNameOf_inj hname
  omega

lemma addCluster_clusters {c : String} {s : School} (h : SchoolWF c s) (ri : Fin 25) (now : Nat) :
    (addCluster c s ri now).clusters
      = s.clusters ++ [(clusterNameOf c (s.lastClusterNumber + 1), newCluster s ri now)] := by
  show setEntry _ _ s.clusters = _
  exact setEntry_of_none (lookup_newName_none h)

lemma SchoolWF.addClusterWF {c : String} {s : School} (h : SchoolWF c s) (ri : Fin 25)
    (now : Nat) : SchoolWF c (addCluster c s ri now) := by
  have happ := addCluster_clusters h ri now
  refine ⟨?_, ?_, ?_, ?_, ?_⟩
  · intro q hq
    rw [happ] at hq
    rcases List.mem_append.mp hq with hm | hm
    · exact h.clustersWF q hm
    · simp only [List.mem_singleton] at hm
      rw [hm]
      exact newCluster_wf s ri now
  · show s.totalDevices = _
    rw [happ]
    simp [newCluster, h.countEq]
  · intro q hq
    rw [happ] at hq
    show q.2.clusterNumber ≤ s.lastClusterNumber + 1
    rcases List.mem_append.mp hq with hm | hm
    · exact Nat.le_succ_of_le (h.numbersLe q hm)
    · simp only [List.mem_singleton] at hm
      rw [hm]
      simp [newCluster]
  · intro q hq
    rw [happ] at hq
    rcases List.mem_append.mp hq with hm | hm
    · exact h.namesEq q hm
    · simp only [List.mem_singleton] at hm
      rw [hm]
      simp [newCluster]
  · rw [happ, List.map_append]
    rw [List.pairwise_append]
    refine ⟨h.numbersSorted, by simp, ?_⟩
    intro a ha b hb
    simp only [List.map_cons, List.map_nil, List.mem_singleton] at hb
    obtain ⟨q, hq, hqa⟩ := List.mem_map.mp ha
    rw [hb, ← hqa]
    simp only [newCluster]
    exact Nat.lt_succ_of_le (h.numbersLe q hq)

lemma place_wf {sd : SchoolData} {c d : String} {ri : Fin 25} {now : Nat}
    {sd' : SchoolData} {resp : HostsResponse} (hwf : StateWF sd)
    (h : postGetHosts sd c d ri now = Except.ok (sd', resp)) : StateWF sd' := by
  obtain ⟨hc, hd, ho⟩ := place_cases h
  have hwf1 : StateWF (initSchool sd c) := hwf.init c
  have hS : SchoolWF c (theSchool (initSchool sd c) c) := SchoolWF.ofInit hwf
  rcases ho with ⟨q, hdc, hsd, _⟩ | ⟨hdc, ⟨q, hsp, hsd, _⟩ | ⟨hsp, hsd, _⟩⟩
  · rw [hsd]
    exact hwf1
  · rw [hsd]
    have hqmem : q ∈ (theSchool (initSchool sd c) c).clusters := List.mem_of_find?_eq_some hsp
    have hlk : lookupEntry q.1 (theSchool (initSchool sd c) c).clusters = some q.2 :=
      lookupEntry_of_mem_nodup hS.keysNodup hqmem
    have hlen : q.2.devices.length < MAX_DEVICES_PER_CLUSTER := by
      simpa using List.find?_some hsp
    exact hwf1.setSchool (hS.afterInsert hlk hlen hd now)
  · rw [hsd]
    have h2 : SchoolWF c (addCluster c (theSchool (initSchool sd c) c) ri now) :=
      hS.addClusterWF ri now
    have hlk : lookupEntry
        (clusterNameOf c ((theSchool (initSchool sd c) c).lastClusterNumber + 1))
        (addCluster c (theSchool (initSchool sd c) c) ri now).clusters
        = some (newCluster (theSchool (initSchool sd c) c) ri now) := by
      show lookupEntry _ (setEntry _ _ _) = _
      exact lookupEntry_setEntry_self
    have hlen : (newCluster (theSchool (initSchool sd c) c) ri now).devices.length
        < MAX_DEVICES_PER_CLUSTER := by
      simp [newCluster, MAX_DEVICES_PER_CLUSTER]
    exact (hwf1.setSchool h2).setSchool (h2.afterInsert hlk hlen hd now)

lemma resetSchool_ok {sd : SchoolData} {c : String} {sd' : SchoolData}
    (h : resetSchool sd c = Except.ok sd') :
    (lookupEntry c sd).isSome ∧ sd' = deleteEntry c sd := by
  rw [resetSchool] at h
  by_cases hs : (lookupEntry c sd).isSome
  · rw [if_pos hs] at h
    injection h with h2
    exact ⟨hs, h2.symm⟩
  · rw [if_neg hs] at h
    exact absurd h (by simp)

lemma resetSchool_wf {sd : SchoolData} {c : String} {sd' : SchoolData} (hwf : StateWF sd)
    (h : resetSchool sd c = Except.ok sd') : StateWF sd' := by
  obtain ⟨_, hsd⟩ := resetSchool_ok h
  rw [hsd]
  intro p hp
  exact hwf p (mem_deleteEntry hp).1

lemma resetCluster_ok {sd : SchoolData} {c numParam : String} {sd' : SchoolData}
    (h : resetCluster sd c numParam = Except.ok sd') :
    ∃ school cluster, lookupEntry c sd = some school ∧
      lookupEntry (c ++ "_" ++ numParam) school.clusters = some cluster ∧
      sd' = setEntry c
        { school with
          totalDevices := school.totalDevices - cluster.devices.length,
          clusters := deleteEntry (c ++ "_" ++ numParam) school.clusters } sd := by
  rw [resetCluster] at h
  cases hl : lookupEntry c sd with
  | none => rw [hl] at h; exact absurd h (by simp)
  | some school =>
    rw [hl] at h
    cases hcl : lookupEntry (c ++ "_" ++ numParam) school.clusters with
    | none => simp only [hcl] at h; exact absurd h (by simp)
    | some cluster =>
      simp only [hcl] at h
      injection h with h2
      exact ⟨school, cluster, rfl, hcl, h2.symm⟩

lemma resetCluster_wf {sd : SchoolData} {c numParam : String} {sd' : SchoolData}
    (hwf : StateWF sd) (h : resetCluster sd c numParam = Except.ok sd') : StateWF sd' := by
  obtain ⟨school, cl, hl, hcl, hsd⟩ := resetCluster_ok h
  have hswf := hwf.lookup hl
  rw [hsd]
  refine hwf.setSchool ⟨?_, ?_, ?_, ?_, ?_⟩
  · intro q hq
    exact hswf.clustersWF q (mem_deleteEntry hq).1
  · show school.totalDevices - cl.devices.length = _
    rw [sum_map_deleteEntry (fun cl => (cl.devices.length : Int)) hswf.keysNodup hcl]
    rw [hswf.countEq]
  · intro q hq
    exact hswf.numbersLe q (mem_deleteEntry hq).1
  · intro q hq
    exact hswf.namesEq q (mem_deleteEntry hq).1
  · exact List.Pairwise.sublist (map_snd_deleteEntry_sublist Cluster.clusterNumber)
      hswf.numbersSorted

/-- Every reachable state of the clustered variant is well formed. -/
lemma reachable_wf {sd : SchoolData} (h : Reachable sd) : StateWF sd := by
  induction h with
  | empty => intro p hp; simp at hp
  | place _ hstep ih => exact place_wf ih hstep
  | resetS _ hstep ih => exact resetSchool_wf ih hstep
  | resetC _ hstep ih => exact resetCluster_wf ih hstep

/-! ### Well-formedness invariant of the flat state -/

/-- Flat-variant per-school invariant. -/
structure FlatSchoolWF (s : FlatSchool) : Prop where
  hostsInv : s.hosts = (s.devices.map Device.deviceId).take 3
  idsNe : ∀ dev ∈ s.devices, dev.deviceId ≠ ""

/-- Flat-variant whole-state invariant. -/
def FlatWF (fd : FlatData) : Prop := ∀ p ∈ fd, FlatSchoolWF p.2

lemma emptyFlatSchool_wf : FlatSchoolWF emptyFlatSchool := by
  refine ⟨?_, ?_⟩ <;> simp [emptyFlatSchool]

lemma FlatWF.lookupFlat {fd : FlatData} {c : String} {s : FlatSchool}
    (h : FlatWF fd) (hl : lookupEntry c fd = some s) : FlatSchoolWF s :=
  h (c, s) (mem_of_lookupEntry hl)

lemma FlatWF.setSchoolFlat {fd : FlatData} {c : String} {s : FlatSchool}
    (h : FlatWF fd) (hs : FlatSchoolWF s) : FlatWF (setEntry c s fd) := by
  intro p hp
  rcases mem_setEntry hp with heq | ⟨hm, _⟩
  · rw [heq]; exact hs
  · exact h p hm

lemma FlatWF.initFlat {fd : FlatData} (h : FlatWF fd) (c : String) : FlatWF (flatInit fd c) := by
  unfold flatInit
  by_cases hs : (lookupEntry c fd).isSome
  · rwa [if_pos hs]
  · rw [if_neg hs]
    exact h.setSchoolFlat emptyFlatSchool_wf

lemma lookup_flatInit_self (fd : FlatData) (c : String) :
    lookupEntry c (flatInit fd c) = some (theFlatSchool (flatInit fd c) c) := by
  cases hl : lookupEntry c fd with
  | some s => simp [flatInit, theFlatSchool, hl]
  | none => simp [flatInit, theFlatSchool, hl, lookupEntry_setEntry_self]

lemma lookup_flatInit_ne {fd : FlatData} {c c' : String} (h : c' ≠ c) :
    lookupEntry c' (flatInit fd c) = lookupEntry c' fd := by
  rw [flatInit]
  by_cases hs : (lookupEntry c fd).isSome
  · rw [if_pos hs]
  · rw [if_neg hs]
    exact lookupEntry_setEntry_ne h

lemma flatInit_of_some {fd : FlatData} {c : String} {s : FlatSchool}
    (h : lookupEntry c fd = some s) : flatInit fd c = fd := by
  simp [flatInit, h]

lemma theFlatSchool_of_some {fd : FlatData} {c : String} {s : FlatSchool}
    (h : lookupEntry c fd = some s) : theFlatSchool fd c = s := by
  simp [theFlatSchool, h]

lemma theFlatSchool_flatInit_of_none {fd : FlatData} {c : String}
    (h : lookupEntry c fd = none) : theFlatSchool (flatInit fd c) c = emptyFlatSchool := by
  simp [flatInit, theFlatSchool, h, lookupEntry_setEntry_self]

lemma FlatSchoolWF.ofInitFlat {fd : FlatData} {c : String} (h : FlatWF fd) :
    FlatSchoolWF (theFlatSchool (flatInit fd c) c) :=
  (h.initFlat c).lookupFlat (lookup_flatInit_self fd c)

/-- The shared take-3 step of the host-prefix invariant: pushing a new id
onto a host list that is the 3-prefix of the id list keeps it the 3-prefix
after the id is appended. -/
lemma hosts_take_step {ids hosts : List String} (hh : hosts = ids.take 3) (d : String) :
    (if hosts.length < 3 then hosts ++ [d] else hosts) = (ids ++ [d]).take 3 := by
  have hlen : hosts.length = min 3 ids.length := by rw [hh, List.length_take]
  by_cases hlt : hosts.length < 3
  · rw [if_pos hlt]
    have hsmall : ids.length < 3 := by omega
    rw [List.take_of_length_le (by simp; omega), hh, List.take_of_length_le (by omega)]
  · rw [if_neg hlt]
    have hbig : 3 ≤ ids.length := by omega
    rw [List.take_append_of_le_length hbig, hh]

lemma FlatSchoolWF.insertFlat {s : FlatSchool} (h : FlatSchoolWF s) {d : String} (hd : d ≠ "")
    (now : Nat) : FlatSchoolWF (flatInsert s d now) := by
  refine ⟨?_, ?_⟩
  · simp only [flatInsert]
    rw [List.map_append]
    exact hosts_take_step h.hostsInv d
  · intro dev hdev
    have hcase : dev ∈ s.devices ∨ dev = ⟨d, now⟩ := by simpa [flatInsert] using hdev
    rcases hcase with hm | hm
    · exact h.idsNe dev hm
    · rw [hm]
      exact hd

/-- Exhaustive description of a successful flat-variant placement call. -/
def FlatOutcome (fd : FlatData) (c d : String) (now : Nat)
    (fd' : FlatData) (resp : FlatResponse) : Prop :=
  let fd1 := flatInit fd c
  let S := theFlatSchool fd1 c
  ((∃ i, S.devices.findIdx? (fun dev => dev.deviceId == d) = some i) ∧
    fd' = fd1 ∧ resp = mkFlatResponse c d S) ∨
  (S.devices.findIdx? (fun dev => dev.deviceId == d) = none ∧
    fd' = setEntry c (flatInsert S d now) fd1 ∧
    resp = mkFlatResponse c d (flatInsert S d now))

lemma flat_cases {fd : FlatData} {c d : String} {now : Nat}
    {fd' : FlatData} {resp : FlatResponse}
    (h : flatGetHosts fd c d now = Except.ok (fd', resp)) :
    c ≠ "" ∧ d ≠ "" ∧ FlatOutcome fd c d now fd' resp := by
  by_cases hcd : c = "" ∨ d = ""
  · rw [flatGetHosts, if_pos hcd] at h
    exact absurd h (by simp)
  · push_neg at hcd
    refine ⟨hcd.1, hcd.2, ?_⟩
    rw [flatGetHosts, if_neg (by simp [hcd.1, hcd.2])] at h
    rw [FlatOutcome]
    cases hdc : (theFlatSchool (flatInit fd c) c).devices.findIdx?
        (fun dev => dev.deviceId == d) with
    | some i =>
      left
      rw [hdc] at h
      injection h with h2
      injection h2 with hsd hresp
      exact ⟨⟨i, rfl⟩, hsd.symm, hresp.symm⟩
    | none =>
      right
      rw [hdc] at h
      injection h with h2
      injection h2 with hsd hresp
      exact ⟨rfl, hsd.symm, hresp.symm⟩

lemma flat_place_wf {fd : FlatData} {c d : String} {now : Nat}
    {fd' : FlatData} {resp : FlatResponse} (hwf : FlatWF fd)
    (h : flatGetHosts fd c d now = Except.ok (fd', resp)) : FlatWF fd' := by
  obtain ⟨hc, hd, ho⟩ := flat_cases h
  have hwf1 : FlatWF (flatInit fd c) := hwf.initFlat c
  have hS : FlatSchoolWF (theFlatSchool (flatInit fd c) c) := FlatSchoolWF.ofInitFlat hwf
  rcases ho with ⟨_, hsd, _⟩ | ⟨hdc, hsd, _⟩
  · rw [hsd]
    exact hwf1
  · rw [hsd]
    exact hwf1.setSchoolFlat (hS.insertFlat hd now)

lemma flatResetSchool_ok {fd : FlatData} {c : String} {fd' : FlatData}
    (h : flatResetSchool fd c = Except.ok fd') :
    (lookupEntry c fd).isSome ∧ fd' = deleteEntry c fd := by
  rw [flatResetSchool] at h
  by_cases hs : (lookupEntry c fd).isSome
  · rw [if_pos hs] at h
    injection h with h2
    exact ⟨hs, h2.symm⟩
  · rw [if_neg hs] at h
    exact absurd h (by simp)

/-- Every reachable state of the flat variant is well formed. -/
lemma flat_reachable_wf {fd : FlatData} (h : FlatReachable fd) : FlatWF fd := by
  induction h with
  | empty => intro p hp; simp at hp
  | place _ hstep ih => exact flat_place_wf ih hstep
  | resetS _ hstep ih =>
    obtain ⟨_, hsd⟩ := flatResetSchool_ok hstep
    rw [hsd]
    intro p hp
    exact ih p (mem_deleteEntry hp).1

/-! ### Helper lemmas about the resolver scans and the response composer -/

lemma findDeviceCluster_nil (d : String) : findDeviceCluster [] d = none := rfl

lemma findSpaceCluster_nil : findSpaceCluster [] = none := rfl

lemma no_device_of_findDeviceCluster_none {clusters : List (String × Cluster)} {d : String}
    (h : findDeviceCluster clusters d = none) :
    ∀ q ∈ clusters, ∀ dev ∈ q.2.devices, (dev.deviceId == d) = false := by
  intro q hq dev hdev
  have hnone := List.find?_eq_none.mp h q hq
  have hfn : q.2.devices.find? (fun dev => dev.deviceId == d) = none := by
    cases hcase : q.2.devices.find? (fun dev => dev.deviceId == d) with
    | none => rfl
    | some dev2 => rw [hcase] at hnone; simp at hnone
  have hx := List.find?_eq_none.mp hfn dev hdev
  simpa using hx

lemma findIdx_append_of_all_false {α : Type} {l : List α} {p : α → Bool}
    (h : ∀ x ∈ l, p x = false) (l2 : List α) :
    (l ++ l2).findIdx p = l.length + l2.findIdx p := by
  induction l with
  | nil => simp
  | cons a t ih =>
    rw [List.cons_append, List.findIdx_cons, h a (List.mem_cons_self _ _), cond_false,
      ih (fun x hx => h x (List.mem_cons_of_mem _ hx))]
    simp only [List.length_cons]
    omega

lemma findIdx_singleton_self (d : String) (now : Nat) :
    ([(⟨d, now⟩ : Device)]).findIdx (fun dev => dev.deviceId == d) = 0 := by
  rw [List.findIdx_cons]
  simp

lemma find?_setEntry_self {β : Type} {l : List (String × β)} {k : String} {v : β}
    (p : String × β → Bool) (hall : ∀ q ∈ l, p q = false) (hv : p (k, v) = true) :
    (setEntry k v l).find? p = some (k, v) := by
  rw [setEntry]
  by_cases hs : (lookupEntry k l).isSome
  · rw [if_pos hs]
    induction l with
    | nil => simp [lookupEntry_nil] at hs
    | cons q rest ih =>
      by_cases hq : q.1 = k
      · rw [List.map_cons, if_pos hq, List.find?_cons, hv]
      · rw [lookupEntry_cons, if_neg hq] at hs
        rw [List.map_cons, if_neg hq, List.find?_cons, hall q (List.mem_cons_self _ _)]
        exact ih (fun x hx => hall x (List.mem_cons_of_mem _ hx)) hs
  · rw [if_neg hs, List.find?_append, List.find?_eq_none.mpr (by
      intro x hx
      simp [hall x hx]), Option.none_or, List.find?_cons, hv]

lemma insertDevice_contains {cl : Cluster} (d : String) (now : Nat) :
    ((insertDevice cl d now).devices.find? (fun dev => dev.deviceId == d)).isSome = true := by
  show ((cl.devices ++ [Device.mk d now]).find? (fun dev => dev.deviceId == d)).isSome = true
  rw [List.find?_append]
  cases hf : cl.devices.find? (fun dev => dev.deviceId == d) with
  | some dev => simp
  | none => simp [List.find?_cons]

lemma findIdx_insertDevice {cl : Cluster} {d : String}
    (h : ∀ dev ∈ cl.devices, (dev.deviceId == d) = false) (now : Nat) :
    (insertDevice cl d now).devices.findIdx (fun dev => dev.deviceId == d)
      = cl.devices.length := by
  show (cl.devices ++ [Device.mk d now]).findIdx (fun dev => dev.deviceId == d) = _
  rw [findIdx_append_of_all_false h, findIdx_singleton_self]
  omega

lemma mkResponse_success (c d name : String) (school : School) (cluster : Cluster) :
    (mkResponse c d name school cluster).success = true := by
  simp only [mkResponse]
  split_ifs <;> rfl

lemma mkResponse_clusterName (c d name : String) (school : School) (cluster : Cluster) :
    (mkResponse c d name school cluster).clusterName = name := by
  simp only [mkResponse]
  split_ifs <;> rfl

lemma mkResponse_clusterNumber (c d name : String) (school : School) (cluster : Cluster) :
    (mkResponse c d name school cluster).clusterNumber = cluster.clusterNumber := by
  simp only [mkResponse]
  split_ifs <;> rfl

lemma mkResponse_frequency (c d name : String) (school : School) (cluster : Cluster) :
    (mkResponse c d name school cluster).frequency = cluster.frequency := by
  simp only [mkResponse]
  split_ifs <;> rfl

lemma mkResponse_totalDevicesInSchool (c d name : String) (school : School) (cluster : Cluster) :
    (mkResponse c d name school cluster).totalDevicesInSchool = school.totalDevices := by
  simp only [mkResponse]
  split_ifs <;> rfl

lemma mkResponse_totalDevicesInCluster (c d name : String) (school : School) (cluster : Cluster) :
    (mkResponse c d name school cluster).totalDevicesInCluster = cluster.devices.length := by
  simp only [mkResponse]
  split_ifs <;> rfl

lemma mkResponse_position (c d name : String) (school : School) (cluster : Cluster) :
    (mkResponse c d name school cluster).positionInCluster
      = cluster.devices.findIdx (fun dev => dev.deviceId == d) + 1 := by
  simp only [mkResponse]
  split_ifs <;> rfl

lemma mkResponse_clusterHosts (c d name : String) (school : School) (cluster : Cluster) :
    (mkResponse c d name school cluster).clusterHosts
      = (jsOrNull (cluster.hosts.get? 0), jsOrNull (cluster.hosts.get? 1),
         jsOrNull (cluster.hosts.get? 2)) := by
  simp only [mkResponse]
  split_ifs <;> rfl

lemma mkResponse_clusterDevices (c d name : String) (school : School) (cluster : Cluster) :
    (mkResponse c d name school cluster).clusterDevices
      = cluster.devices.map Device.deviceId := by
  simp only [mkResponse]
  split_ifs <;> rfl

lemma mkResponse_idx0 {c d name : String} {school : School} {cluster : Cluster}
    (h : cluster.devices.findIdx (fun dev => dev.deviceId == d) = 0) :
    (mkResponse c d name school cluster).role = "host1" ∧
    (mkResponse c d name school cluster).hostDeviceId = some d ∧
    (mkResponse c d name school cluster).host2DeviceId = none ∧
    (mkResponse c d name school cluster).host3DeviceId = none := by
  simp only [mkResponse, h]
  norm_num

lemma mkResponse_idx1 {c d name : String} {school : School} {cluster : Cluster}
    (h : cluster.devices.findIdx (fun dev => dev.deviceId == d) = 1) :
    (mkResponse c d name school cluster).role = "host2" ∧
    (mkResponse c d name school cluster).hostDeviceId = cluster.hosts.get? 0 ∧
    (mkResponse c d name school cluster).host2DeviceId = some d ∧
    (mkResponse c d name school cluster).host3DeviceId = none := by
  simp only [mkResponse, h]
  norm_num

lemma mkResponse_idx2 {c d name : String} {school : School} {cluster : Cluster}
    (h : cluster.devices.findIdx (fun dev => dev.deviceId == d) = 2) :
    (mkResponse c d name school cluster).role = "host3" ∧
    (mkResponse c d name school cluster).hostDeviceId = cluster.hosts.get? 0 ∧
    (mkResponse c d name school cluster).host2DeviceId = cluster.hosts.get? 1 ∧
    (mkResponse c d name school cluster).host3DeviceId = some d := by
  simp only [mkResponse, h]
  norm_num

lemma mkResponse_client {c d name : String} {school : School} {cluster : Cluster}
    (h : 3 ≤ cluster.devices.findIdx (fun dev => dev.deviceId == d)) :
    (mkResponse c d name school cluster).role = "client" ∧
    (mkResponse c d name school cluster).hostDeviceId = cluster.hosts.get? 0 ∧
    (mkResponse c d name school cluster).host2DeviceId = cluster.hosts.get? 1 ∧
    (mkResponse c d name school cluster).host3DeviceId = cluster.hosts.get? 2 := by
  have h0 : ¬ cluster.devices.findIdx (fun dev => dev.deviceId == d) = 0 := by omega
  have h1 : ¬ cluster.devices.findIdx (fun dev => dev.deviceId == d) = 1 := by omega
  have h2 : ¬ cluster.devices.findIdx (fun dev => dev.deviceId == d) = 2 := by omega
  simp only [mkResponse, if_neg h0, if_neg h1, if_neg h2]
  norm_num

/-! ### Mid-level lemmas about a placement call -/

lemma findDeviceCluster_none_all {clusters : List (String × Cluster)} {d : String}
    (h : findDeviceCluster clusters d = none) :
    ∀ q ∈ clusters, ((q.2.devices.find? (fun dev => dev.deviceId == d)).isSome) = false := by
  intro q hq
  have := List.find?_eq_none.mp h q hq
  simpa using this

lemma findDeviceCluster_some_contains {clusters : List (String × Cluster)} {d : String}
    {q : String × Cluster} (h : findDeviceCluster clusters d = some q) :
    ∃ dev ∈ q.2.devices, dev.deviceId = d := by
  have hp := List.find?_some h
  rw [Option.isSome_iff_exists] at hp
  obtain ⟨dev, hdev⟩ := hp
  refine ⟨dev, List.mem_of_find?_eq_some hdev, ?_⟩
  have := List.find?_some hdev
  simpa using this

/-- Placement never touches the entry of a different school code. -/
lemma place_frame {sd : SchoolData} {c d : String} {ri : Fin 25} {now : Nat}
    {sd' : SchoolData} {resp : HostsResponse}
    (h : postGetHosts sd c d ri now = Except.ok (sd', resp)) {c' : String} (hne : c' ≠ c) :
    lookupEntry c' sd' = lookupEntry c' sd := by
  obtain ⟨_, _, ho⟩ := place_cases h
  rcases ho with ⟨q, _, hsd, _⟩ | ⟨_, ⟨q, _, hsd, _⟩ | ⟨_, hsd, _⟩⟩ <;> rw [hsd]
  · exact lookup_initSchool_ne hne
  · rw [lookupEntry_setEntry_ne hne]
    exact lookup_initSchool_ne hne
  · rw [lookupEntry_setEntry_ne hne, lookupEntry_setEntry_ne hne]
    exact lookup_initSchool_ne hne

/-- After a successful placement, the response's cluster name resolves in
the updated state to a cluster from which the response was composed. -/
lemma place_resolved {sd : SchoolData} {c d : String} {ri : Fin 25} {now : Nat}
    {sd' : SchoolData} {resp : HostsResponse} (hwf : StateWF sd)
    (h : postGetHosts sd c d ri now = Except.ok (sd', resp)) :
    ∃ school cluster, lookupEntry c sd' = some school ∧
      lookupEntry resp.clusterName school.clusters = some cluster ∧
      resp = mkResponse c d resp.clusterName school cluster := by
  obtain ⟨hc, hd, ho⟩ := place_cases h
  have hS : SchoolWF c (theSchool (initSchool sd c) c) := SchoolWF.ofInit hwf
  rcases ho with ⟨q, hdc, hsd, hresp⟩ | ⟨hdc, ⟨q, hsp, hsd, hresp⟩ | ⟨hsp, hsd, hresp⟩⟩
  · refine ⟨theSchool (initSchool sd c) c, q.2, ?_, ?_, ?_⟩
    · rw [hsd]
      exact lookup_initSchool_self sd c
    · have hname : resp.clusterName = q.1 := by rw [hresp, mkResponse_clusterName]
      rw [hname]
      exact lookupEntry_of_mem_nodup hS.keysNodup (List.mem_of_find?_eq_some hdc)
    · rw [hresp, mkResponse_clusterName]
  · refine ⟨schoolAfterInsert (theSchool (initSchool sd c) c) q.1 q.2 d now,
      insertDevice q.2 d now, ?_, ?_, ?_⟩
    · rw [hsd]
      exact lookupEntry_setEntry_self
    · have hname : resp.clusterName = q.1 := by rw [hresp, mkResponse_clusterName]
      rw [hname]
      show lookupEntry q.1 (setEntry q.1 (insertDevice q.2 d now) _) = _
      exact lookupEntry_setEntry_self
    · rw [hresp, mkResponse_clusterName]
  · refine ⟨schoolAfterInsert (addCluster c (theSchool (initSchool sd c) c) ri now)
        (clusterNameOf c ((theSchool (initSchool sd c) c).lastClusterNumber + 1))
        (newCluster (theSchool (initSchool sd c) c) ri now) d now,
      insertDevice (newCluster (theSchool (initSchool sd c) c) ri now) d now, ?_, ?_, ?_⟩
    · rw [hsd]
      exact lookupEntry_setEntry_self
    · have hname : resp.clusterName
          = clusterNameOf c ((theSchool (initSchool sd c) c).lastClusterNumber + 1) := by
        rw [hresp, mkResponse_clusterName]
      rw [hname]
      show lookupEntry _ (setEntry _ (insertDevice _ d now) _) = _
      exact lookupEntry_setEntry_self
    · rw [hresp, mkResponse_clusterName]

/-- A successful placement is idempotent: repeating the call with the same
pair (and any oracle values) returns the same state and response. -/
lemma place_idem {sd : SchoolData} {c d : String} {ri : Fin 25} {now : Nat}
    {sd' : SchoolData} {resp : HostsResponse}
    (h : postGetHosts sd c d ri now = Except.ok (sd', resp)) (ri2 : Fin 25) (now2 : Nat) :
    postGetHosts sd' c d ri2 now2 = Except.ok (sd', resp) := by
  obtain ⟨hc, hd, ho⟩ := place_cases h
  rw [postGetHosts, if_neg (by simp [hc, hd])]
  rcases ho with ⟨q, hdc, hsd, hresp⟩ | ⟨hdc, ⟨q, hsp, hsd, hresp⟩ | ⟨hsp, hsd, hresp⟩⟩
  · have hlk : lookupEntry c sd' = some (theSchool (initSchool sd c) c) := by
      rw [hsd]
      exact lookup_initSchool_self sd c
    have hinit : initSchool sd' c = sd' := initSchool_of_some hlk
    have hts : theSchool sd' c = theSchool (initSchool sd c) c := theSchool_of_some hlk
    have hfoc : findOrCreateCluster sd' c d ri2 now2
        = ⟨sd', theSchool (initSchool sd c) c, q.1, q.2, true⟩ := by
      simp only [findOrCreateCluster, hinit, hts, hdc]
    rw [hfoc]
    simp only [applyNewDevice, eq_self_iff_true, if_true]
    rw [hresp]
  · have hlk : lookupEntry c sd'
        = some (schoolAfterInsert (theSchool (initSchool sd c) c) q.1 q.2 d now) := by
      rw [hsd]
      exact lookupEntry_setEntry_self
    have hinit : initSchool sd' c = sd' := initSchool_of_some hlk
    have hts : theSchool sd' c
        = schoolAfterInsert (theSchool (initSchool sd c) c) q.1 q.2 d now :=
      theSchool_of_some hlk
    have hfd2 : findDeviceCluster
        (schoolAfterInsert (theSchool (initSchool sd c) c) q.1 q.2 d now).clusters d
        = some (q.1, insertDevice q.2 d now) := by
      show (setEntry q.1 (insertDevice q.2 d now) _).find? _ = _
      exact find?_setEntry_self _ (findDeviceCluster_none_all hdc) (insertDevice_contains d now)
    have hfoc : findOrCreateCluster sd' c d ri2 now2
        = ⟨sd', schoolAfterInsert (theSchool (initSchool sd c) c) q.1 q.2 d now,
           q.1, insertDevice q.2 d now, true⟩ := by
      simp only [findOrCreateCluster, hinit, hts, hfd2]
    rw [hfoc]
    simp only [applyNewDevice, eq_self_iff_true, if_true]
    rw [hresp]
  · have hlk : lookupEntry c sd'
        = some (schoolAfterInsert (addCluster c (theSchool (initSchool sd c) c) ri now)
            (clusterNameOf c ((theSchool (initSchool sd c) c).lastClusterNumber + 1))
            (newCluster (theSchool (initSchool sd c) c) ri now) d now) := by
      rw [hsd]
      exact lookupEntry_setEntry_self
    have hinit : initSchool sd' c = sd' := initSchool_of_some hlk
    have hts : theSchool sd' c
        = schoolAfterInsert (addCluster c (theSchool (initSchool sd c) c) ri now)
            (clusterNameOf c ((theSchool (initSchool sd c) c).lastClusterNumber + 1))
            (newCluster (theSchool (initSchool sd c) c) ri now) d now :=
      theSchool_of_some hlk
    have hall2 : ∀ p ∈ (addCluster c (theSchool (initSchool sd c) c) ri now).clusters,
        ((p.2.devices.find? (fun dev => dev.deviceId == d)).isSome) = false := by
      intro p hp
      rcases mem_setEntry (show p ∈ setEntry _ _ _ from hp) with heq | ⟨hm, _⟩
      · rw [heq]
        simp [newCluster]
      · exact findDeviceCluster_none_all hdc p hm
    have hfd2 : findDeviceCluster
        (schoolAfterInsert (addCluster c (theSchool (initSchool sd c) c) ri now)
          (clusterNameOf c ((theSchool (initSchool sd c) c).lastClusterNumber + 1))
          (newCluster (theSchool (initSchool sd c) c) ri now) d now).clusters d
        = some (clusterNameOf c ((theSchool (initSchool sd c) c).lastClusterNumber + 1),
            insertDevice (newCluster (theSchool (initSchool sd c) c) ri now) d now) := by
      show (setEntry _ (insertDevice _ d now) _).find? _ = _
      exact find?_setEntry_self _ hall2 (insertDevice_contains d now)
    have hfoc : findOrCreateCluster sd' c d ri2 now2
        = ⟨sd', schoolAfterInsert (addCluster c (theSchool (initSchool sd c) c) ri now)
            (clusterNameOf c ((theSchool (initSchool sd c) c).lastClusterNumber + 1))
            (newCluster (theSchool (initSchool sd c) c) ri now) d now,
           clusterNameOf c ((theSchool (initSchool sd c) c).lastClusterNumber + 1),
           insertDevice (newCluster (theSchool (initSchool sd c) c) ri now) d now, true⟩ := by
      simp only [findOrCreateCluster, hinit, hts, hfd2]
    rw [hfoc]
    simp only [applyNewDevice, eq_self_iff_true, if_true]
    rw [hresp]

/-- How a placement call changes the school entry of the targeted school
code: monotone `lastClusterNumber`, no mutation for an existing device, a
single increment of `totalDevices` for a new one. -/
lemma place_school_facts {sd : SchoolData} {c d : String} {ri : Fin 25} {now : Nat}
    {sd' : SchoolData} {resp : HostsResponse}
    (h : postGetHosts sd c d ri now = Except.ok (sd', resp)) {school : School}
    (hl : lookupEntry c sd = some school) :
    ∃ school', lookupEntry c sd' = some school' ∧
      school.lastClusterNumber ≤ school'.lastClusterNumber ∧
      ((∃ q ∈ school.clusters, ∃ dev ∈ q.2.devices, dev.deviceId = d) →
        sd' = sd ∧ school' = school) ∧
      ((∀ q ∈ school.clusters, ∀ dev ∈ q.2.devices, dev.deviceId ≠ d) →
        school'.totalDevices = school.totalDevices + 1) := by
  obtain ⟨hc, hd, ho⟩ := place_cases h
  have hinit : initSchool sd c = sd := initSchool_of_some hl
  have hts : theSchool (initSchool sd c) c = school := by
    rw [hinit]
    exact theSchool_of_some hl
  rcases ho with ⟨q, hdc, hsd, hresp⟩ | ⟨hdc, ⟨q, hsp, hsd, hresp⟩ | ⟨hsp, hsd, hresp⟩⟩
  · rw [hts] at hdc
    refine ⟨school, by rw [hsd, hinit]; exact hl, le_rfl, ?_, ?_⟩
    · intro _
      rw [hsd, hinit]
      exact ⟨rfl, rfl⟩
    · intro hnone
      obtain ⟨dev, hdev, hid⟩ := findDeviceCluster_some_contains hdc
      exact absurd hid (hnone _ (List.mem_of_find?_eq_some hdc) dev hdev)
  · rw [hts] at hdc hsp hsd hresp
    refine ⟨schoolAfterInsert school q.1 q.2 d now, by rw [hsd]; exact lookupEntry_setEntry_self,
      le_rfl, ?_, ?_⟩
    · intro ⟨q2, hq2, dev, hdev, hid⟩
      have := no_device_of_findDeviceCluster_none hdc q2 hq2 dev hdev
      rw [hid] at this
      simp at this
    · intro _
      rfl
  · rw [hts] at hdc hsp hsd hresp
    refine ⟨schoolAfterInsert (addCluster c school ri now)
        (clusterNameOf c (school.lastClusterNumber + 1)) (newCluster school ri now) d now,
      by rw [hsd]; exact lookupEntry_setEntry_self, ?_, ?_, ?_⟩
    · show school.lastClusterNumber ≤ school.lastClusterNumber + 1
      omega
    · intro ⟨q2, hq2, dev, hdev, hid⟩
      have := no_device_of_findDeviceCluster_none hdc q2 hq2 dev hdev
      rw [hid] at this
      simp at this
    · intro _
      rfl

/-- How a cluster reset changes the school entry: the count drops by the
removed cluster's device count, `lastClusterNumber` and all other clusters
are untouched, and the removed cluster's name no longer resolves. -/
lemma resetCluster_facts {sd : SchoolData} {c numParam : String} {sd' : SchoolData}
    (h : resetCluster sd c numParam = Except.ok sd') {school : School} {cl : Cluster}
    (hl : lookupEntry c sd = some school)
    (hcl : lookupEntry (c ++ "_" ++ numParam) school.clusters = some cl) :
    ∃ school', lookupEntry c sd' = some school' ∧
      school'.totalDevices = school.totalDevices - cl.devices.length ∧
      school'.lastClusterNumber = school.lastClusterNumber ∧
      lookupEntry (c ++ "_" ++ numParam) school'.clusters = none ∧
      (∀ name, name ≠ c ++ "_" ++ numParam →
        lookupEntry name school'.clusters = lookupEntry name school.clusters) ∧
      (∀ c', c' ≠ c → lookupEntry c' sd' = lookupEntry c' sd) := by
  obtain ⟨school0, cl0, hl0, hcl0, hsd⟩ := resetCluster_ok h
  rw [hl0] at hl
  injection hl with hl
  subst hl
  rw [hcl0] at hcl
  injection hcl with hcl
  subst hcl
  refine ⟨{ school0 with
      totalDevices := school0.totalDevices - cl0.devices.length,
      clusters := deleteEntry (c ++ "_" ++ numParam) school0.clusters },
    by rw [hsd]; exact lookupEntry_setEntry_self, rfl, rfl, ?_, ?_, ?_⟩
  · exact lookupEntry_deleteEntry_self
  · intro name hname
    exact lookupEntry_deleteEntry_ne hname
  · intro c' hc'
    rw [hsd]
    exact lookupEntry_setEntry_ne hc'

/-! ### Mid-level lemmas about the flat variant -/

lemma mkFlatResponse_position (c d : String) (school : FlatSchool) :
    (mkFlatResponse c d school).position
      = school.devices.findIdx (fun dev => dev.deviceId == d) + 1 := by
  simp only [mkFlatResponse]
  split_ifs <;> rfl

lemma mkFlatResponse_totalDevices (c d : String) (school : FlatSchool) :
    (mkFlatResponse c d school).totalDevices = school.devices.length := by
  simp only [mkFlatResponse]
  split_ifs <;> rfl

lemma mkFlatResponse_hosts (c d : String) (school : FlatSchool) :
    (mkFlatResponse c d school).hosts
      = (jsOrNull (school.hosts.get? 0), jsOrNull (school.hosts.get? 1),
         jsOrNull (school.hosts.get? 2)) := by
  simp only [mkFlatResponse]
  split_ifs <;> rfl

lemma mkFlatResponse_idx0 {c d : String} {school : FlatSchool}
    (h : school.devices.findIdx (fun dev => dev.deviceId == d) = 0) :
    (mkFlatResponse c d school).role = "host1" ∧
    (mkFlatResponse c d school).hostDeviceId = some d ∧
    (mkFlatResponse c d school).host2DeviceId = none ∧
    (mkFlatResponse c d school).host3DeviceId = none := by
  simp only [mkFlatResponse, h]
  norm_num

lemma mkFlatResponse_idx1 {c d : String} {school : FlatSchool}
    (h : school.devices.findIdx (fun dev => dev.deviceId == d) = 1) :
    (mkFlatResponse c d school).role = "host2" ∧
    (mkFlatResponse c d school).hostDeviceId = school.hosts.get? 0 ∧
    (mkFlatResponse c d school).host2DeviceId = some d ∧
    (mkFlatResponse c d school).host3DeviceId = none := by
  simp only [mkFlatResponse, h]
  norm_num

lemma mkFlatResponse_idx2 {c d : String} {school : FlatSchool}
    (h : school.devices.findIdx (fun dev => dev.deviceId == d) = 2) :
    (mkFlatResponse c d school).role = "host3" ∧
    (mkFlatResponse c d school).hostDeviceId = school.hosts.get? 0 ∧
    (mkFlatResponse c d school).host2DeviceId = school.hosts.get? 1 ∧
    (mkFlatResponse c d school).host3DeviceId = some d := by
  simp only [mkFlatResponse, h]
  norm_num

lemma mkFlatResponse_client {c d : String} {school : FlatSchool}
    (h : 3 ≤ school.devices.findIdx (fun dev => dev.deviceId == d)) :
    (mkFlatResponse c d school).role = "client" ∧
    (mkFlatResponse c d school).hostDeviceId = school.hosts.get? 0 ∧
    (mkFlatResponse c d school).host2DeviceId = school.hosts.get? 1 ∧
    (mkFlatResponse c d school).host3DeviceId = school.hosts.get? 2 := by
  have h0 : ¬ school.devices.findIdx (fun dev => dev.deviceId == d) = 0 := by omega
  have h1 : ¬ school.devices.findIdx (fun dev => dev.deviceId == d) = 1 := by omega
  have h2 : ¬ school.devices.findIdx (fun dev => dev.deviceId == d) = 2 := by omega
  simp only [mkFlatResponse, if_neg h0, if_neg h1, if_neg h2]
  norm_num

/-- Flat placement never touches a different school entry. -/
lemma flat_frame {fd : FlatData} {c d : String} {now : Nat}
    {fd' : FlatData} {resp : FlatResponse}
    (h : flatGetHosts fd c d now = Except.ok (fd', resp)) {c' : String} (hne : c' ≠ c) :
    lookupEntry c' fd' = lookupEntry c' fd := by
  obtain ⟨_, _, ho⟩ := flat_cases h
  rcases ho with ⟨_, hsd, _⟩ | ⟨_, hsd, _⟩ <;> rw [hsd]
  · exact lookup_flatInit_ne hne
  · rw [lookupEntry_setEntry_ne hne]
    exact lookup_flatInit_ne hne

/-- After a successful flat placement the response was composed from the
school now stored under the school code. -/
lemma flat_resolved {fd : FlatData} {c d : String} {now : Nat}
    {fd' : FlatData} {resp : FlatResponse}
    (h : flatGetHosts fd c d now = Except.ok (fd', resp)) :
    ∃ school, lookupEntry c fd' = some school ∧ resp = mkFlatResponse c d school := by
  obtain ⟨_, _, ho⟩ := flat_cases h
  rcases ho with ⟨_, hsd, hresp⟩ | ⟨_, hsd, hresp⟩
  · exact ⟨_, by rw [hsd]; exact lookup_flatInit_self fd c, hresp⟩
  · exact ⟨_, by rw [hsd]; exact lookupEntry_setEntry_self, hresp⟩

/-- Flat placement is idempotent. -/
lemma flat_idem {fd : FlatData} {c d : String} {now : Nat}
    {fd' : FlatData} {resp : FlatResponse}
    (h : flatGetHosts fd c d now = Except.ok (fd', resp)) (now2 : Nat) :
    flatGetHosts fd' c d now2 = Except.ok (fd', resp) := by
  obtain ⟨hc, hd, ho⟩ := flat_cases h
  rw [flatGetHosts, if_neg (by simp [hc, hd])]
  rcases ho with ⟨⟨i, hdc⟩, hsd, hresp⟩ | ⟨hdc, hsd, hresp⟩
  · have hlk : lookupEntry c fd' = some (theFlatSchool (flatInit fd c) c) := by
      rw [hsd]
      exact lookup_flatInit_self fd c
    have hinit : flatInit fd' c = fd' := flatInit_of_some hlk
    have hts : theFlatSchool fd' c = theFlatSchool (flatInit fd c) c := theFlatSchool_of_some hlk
    rw [hinit, hts, hdc, hresp, hsd]
  · have hlk : lookupEntry c fd'
        = some (flatInsert (theFlatSchool (flatInit fd c) c) d now) := by
      rw [hsd]
      exact lookupEntry_setEntry_self
    have hinit : flatInit fd' c = fd' := flatInit_of_some hlk
    have hts : theFlatSchool fd' c = flatInsert (theFlatSchool (flatInit fd c) c) d now :=
      theFlatSchool_of_some hlk
    have hsome : ∃ i, (flatInsert (theFlatSchool (flatInit fd c) c) d now).devices.findIdx?
        (fun dev => dev.deviceId == d) = some i := by
      cases hfi : (flatInsert (theFlatSchool (flatInit fd c) c) d now).devices.findIdx?
          (fun dev => dev.deviceId == d) with
      | some i => exact ⟨i, rfl⟩
      | none =>
        have := List.findIdx?_eq_none_iff.mp hfi (Device.mk d now) (by simp [flatInsert])
        simp at this
    obtain ⟨i, hfi⟩ := hsome
    rw [hinit, hts, hfi, hresp]

/-- Placement into a school code with no stored school: the school and a
first cluster are auto-created and the caller becomes `host1` of cluster 1. -/
lemma place_fresh {sd : SchoolData} {c d : String} {ri : Fin 25} {now : Nat}
    (hl : lookupEntry c sd = none) (hc : c ≠ "") (hd : d ≠ "") :
    postGetHosts sd c d ri now = Except.ok
      (setEntry c
        (schoolAfterInsert (addCluster c emptySchool ri now) (clusterNameOf c 1)
          (newCluster emptySchool ri now) d now)
        (setEntry c (addCluster c emptySchool ri now) (initSchool sd c)),
       mkResponse c d (clusterNameOf c 1)
         (schoolAfterInsert (addCluster c emptySchool ri now) (clusterNameOf c 1)
           (newCluster emptySchool ri now) d now)
         (insertDevice (newCluster emptySchool ri now) d now)) := by
  have hts : theSchool (initSchool sd c) c = emptySchool := theSchool_initSchool_of_none hl
  rw [postGetHosts, if_neg (by simp [hc, hd])]
  have hfoc : findOrCreateCluster sd c d ri now
      = ⟨setEntry c (addCluster c emptySchool ri now) (initSchool sd c),
         addCluster c emptySchool ri now, clusterNameOf c 1,
         newCluster emptySchool ri now, false⟩ := by
    simp only [findOrCreateCluster, hts]
    norm_num [emptySchool, findDeviceCluster_nil, findSpaceCluster_nil]
  rw [hfoc]
  simp only [applyNewDevice, Bool.false_eq_true, if_false]

lemma findIdx_insert_newCluster (s : School) (ri : Fin 25) (d : String) (now : Nat) :
    (insertDevice (newCluster s ri now) d now).devices.findIdx
      (fun dev => dev.deviceId == d) = 0 := by
  show ([] ++ [Device.mk d now]).findIdx (fun dev : Device => dev.deviceId == d) = 0
  rw [List.nil_append]
  exact findIdx_singleton_self d now

/-- Querying `GET /api/school` on an unknown school code yields a NotFound error. -/
lemma getSchool_none {sd : SchoolData} {c : String} (hl : lookupEntry c sd = none) :
    getSchool sd c = Except.error ApiError.notFoundSchool := by
  simp only [getSchool, hl]

/-- A successful `GET /api/school/:c/cluster/:n` reports the stored cluster. -/
lemma getCluster_ok {sd : SchoolData} {c numParam : String} {info : ClusterInfo}
    (h : getCluster sd c numParam = Except.ok info) :
    ∃ school cluster, lookupEntry c sd = some school ∧
      lookupEntry (c ++ "_" ++ numParam) school.clusters = some cluster ∧
      info.frequency = cluster.frequency ∧ info.hosts = cluster.hosts ∧
      info.devices = cluster.devices := by
  rw [getCluster] at h
  cases hl : lookupEntry c sd with
  | none => rw [hl] at h; exact absurd h (by simp)
  | some school =>
    rw [hl] at h
    cases hcl : lookupEntry (c ++ "_" ++ numParam) school.clusters with
    | none => simp only [hcl] at h; exact absurd h (by simp)
    | some cluster =>
      simp only [hcl] at h
      injection h with h2
      exact ⟨school, cluster, rfl, hcl, by rw [← h2], by rw [← h2], by rw [← h2]⟩

/-- Flat placement of a device that is genuinely new to a stored school. -/
lemma flat_place_new {fd : FlatData} {c d : String} {now : Nat} {S : FlatSchool}
    (hc : c ≠ "") (hd : d ≠ "") (hlk : lookupEntry c fd = some S)
    (hnew : ∀ dev ∈ S.devices, (dev.deviceId == d) = false) :
    flatGetHosts fd c d now = Except.ok
      (setEntry c (flatInsert S d now) fd, mkFlatResponse c d (flatInsert S d now)) := by
  have hinit : flatInit fd c = fd := flatInit_of_some hlk
  have hts : theFlatSchool fd c = S := theFlatSchool_of_some hlk
  have hfi : S.devices.findIdx? (fun dev => dev.deviceId == d) = none :=
    List.findIdx?_eq_none_iff.mpr hnew
  rw [flatGetHosts, if_neg (by simp [hc, hd]), hinit, hts, hfi]

/-- Flat placement into a school code with no stored school. -/
lemma flat_place_fresh {fd : FlatData} {c d : String} {now : Nat}
    (hc : c ≠ "") (hd : d ≠ "") (hl : lookupEntry c fd = none) :
    flatGetHosts fd c d now = Except.ok
      (setEntry c (flatInsert emptyFlatSchool d now) (flatInit fd c),
       mkFlatResponse c d (flatInsert emptyFlatSchool d now)) := by
  have hts : theFlatSchool (flatInit fd c) c = emptyFlatSchool :=
    theFlatSchool_flatInit_of_none hl
  rw [flatGetHosts, if_neg (by simp [hc, hd]), hts]
  rfl

lemma mkFlatResponse_success (c d : String) (school : FlatSchool) :
    (mkFlatResponse c d school).success = true := by
  simp only [mkFlatResponse]
  split_ifs <;> rfl

/-- The JS fallback `x || null` collapses to the slot itself when every stored id is a
non-empty string. -/
lemma jsOrNull_get_eq {hosts ids : List String} (hh : hosts = ids.take 3)
    (hne : ∀ s ∈ ids, s ≠ "") (j : Nat) : jsOrNull (hosts.get? j) = hosts.get? j := by
  cases hg : hosts.get? j with
  | none => rfl
  | some s =>
    have hs : s ∈ hosts := List.get?_mem hg
    rw [hh] at hs
    have hmem : s ∈ ids := List.take_subset 3 ids hs
    simp [jsOrNull, hne s hmem]

lemma ClusterWF.jsOrNull_get {cl : Cluster} (h : ClusterWF cl) (j : Nat) :
    jsOrNull (cl.hosts.get? j) = cl.hosts.get? j := by
  refine jsOrNull_get_eq h.hostsInv ?_ j
  intro s hs
  obtain ⟨dev, hdev, hdid⟩ := List.mem_map.mp hs
  rw [← hdid]
  exact h.idsNe dev hdev

lemma FlatSchoolWF.jsOrNullGetFlat {s : FlatSchool} (h : FlatSchoolWF s) (j : Nat) :
    jsOrNull (s.hosts.get? j) = s.hosts.get? j := by
  refine jsOrNull_get_eq h.hostsInv ?_ j
  intro x hx
  obtain ⟨dev, hdev, hdid⟩ := List.mem_map.mp hx
  rw [← hdid]
  exact h.idsNe dev hdev

/-! ### Concrete inputs used by witnesses and counterexamples -/

def codeA : String := "A"

def codeB : String := "B"

def codeABC : String := "ABC"

def dev1 : String := "d1"

def dev2 : String := "d2"

def dev4 : String := "d4"

def devX : String := "x"

/-! ### The claims -/

/-- Claim C4: in every reachable state of either variant, every cluster's
(resp. flat school's) host list equals the device ids of the first
min(3, len(devices)) devices in arrival order, so it never exceeds 3
entries, even though the flat device list is unbounded. -/
theorem claim_C4_host_inv {sd : SchoolData} {fd : FlatData}
    (hr : Reachable sd) (hf : FlatReachable fd) :
    (∀ p ∈ sd, ∀ q ∈ p.2.clusters,
      q.2.hosts = (q.2.devices.map Device.deviceId).take 3 ∧ q.2.hosts.length ≤ 3) ∧
    (∀ p ∈ fd,
      p.2.hosts = (p.2.devices.map Device.deviceId).take 3 ∧ p.2.hosts.length ≤ 3) := by
  have hwf := reachable_wf hr
  have hfwf := flat_reachable_wf hf
  constructor
  · intro p hp q hq
    have h1 := ((hwf p hp).clustersWF q hq).hostsInv
    refine ⟨h1, ?_⟩
    rw [h1, List.length_take]
    omega
  · intro p hp
    have h1 := (hfwf p hp).hostsInv
    refine ⟨h1, ?_⟩
    rw [h1, List.length_take]
    omega

theorem claim_C4_host_inv_witness :
    Reachable ([] : SchoolData) ∧ FlatReachable ([] : FlatData) ∧
    ((∀ p ∈ ([] : SchoolData), ∀ q ∈ p.2.clusters,
        q.2.hosts = (q.2.devices.map Device.deviceId).take 3 ∧ q.2.hosts.length ≤ 3) ∧
     (∀ p ∈ ([] : FlatData),
        p.2.hosts = (p.2.devices.map Device.deviceId).take 3 ∧ p.2.hosts.length ≤ 3)) :=
  ⟨Reachable.empty, FlatReachable.empty,
   claim_C4_host_inv Reachable.empty FlatReachable.empty⟩

/-- Claim C3: in every reachable clustered state no cluster ever holds more
than `MAX_DEVICES_PER_CLUSTER = 10` devices, and a placement call for a
device unseen in the school routes it to `findSpaceCluster` — the first
cluster in insertion (= creation) order with fewer than 10 devices — or,
when every cluster is full, to a brand-new cluster named and numbered
`lastClusterNumber + 1`, leaving every pre-existing cluster untouched. -/
theorem claim_C3_capacity {sd : SchoolData} (hr : Reachable sd) :
    (∀ p ∈ sd, ∀ q ∈ p.2.clusters, q.2.devices.length ≤ MAX_DEVICES_PER_CLUSTER) ∧
    (∀ c d ri now sd' resp school, lookupEntry c sd = some school →
      (∀ q ∈ school.clusters, ∀ dev ∈ q.2.devices, dev.deviceId ≠ d) →
      postGetHosts sd c d ri now = Except.ok (sd', resp) →
      ∃ school', lookupEntry c sd' = some school' ∧
        ((∃ q, findSpaceCluster school.clusters = some q ∧
            q.2.devices.length < MAX_DEVICES_PER_CLUSTER ∧
            resp.clusterName = q.1 ∧
            lookupEntry q.1 school'.clusters = some (insertDevice q.2 d now) ∧
            school'.lastClusterNumber = school.lastClusterNumber) ∨
         (findSpaceCluster school.clusters = none ∧
            resp.clusterName = clusterNameOf c (school.lastClusterNumber + 1) ∧
            resp.clusterNumber = school.lastClusterNumber + 1 ∧
            lookupEntry resp.clusterName school.clusters = none ∧
            lookupEntry resp.clusterName school'.clusters
              = some (insertDevice (newCluster school ri now) d now) ∧
            school'.lastClusterNumber = school.lastClusterNumber + 1 ∧
            ∀ q ∈ school.clusters, lookupEntry q.1 school'.clusters = some q.2))) := by
  have hwf := reachable_wf hr
  refine ⟨?_, ?_⟩
  · intro p hp q hq
    exact ((hwf p hp).clustersWF q hq).devicesLe
  · intro c d ri now sd' resp school hl hnew h
    obtain ⟨hc, hd, ho⟩ := place_cases h
    have hinit : initSchool sd c = sd := initSchool_of_some hl
    have hts : theSchool (initSchool sd c) c = school := by
      rw [hinit]
      exact theSchool_of_some hl
    have hswf : SchoolWF c school := hwf.lookup hl
    rcases ho with ⟨q, hdc, hsd, hresp⟩ | ⟨hdc, ⟨q, hsp, hsd, hresp⟩ | ⟨hsp, hsd, hresp⟩⟩
    · rw [hts] at hdc
      obtain ⟨dev, hdev, hid⟩ := findDeviceCluster_some_contains hdc
      exact absurd hid (hnew _ (List.mem_of_find?_eq_some hdc) dev hdev)
    · rw [hts] at hdc hsp hsd hresp
      refine ⟨schoolAfterInsert school q.1 q.2 d now,
        by rw [hsd]; exact lookupEntry_setEntry_self,
        Or.inl ⟨q, hsp, ?_, ?_, ?_, rfl⟩⟩
      · simpa using List.find?_some hsp
      · rw [hresp, mkResponse_clusterName]
      · show lookupEntry q.1 (setEntry q.1 (insertDevice q.2 d now) school.clusters) = _
        exact lookupEntry_setEntry_self
    · rw [hts] at hdc hsp hsd hresp
      have hnone := lookup_newName_none hswf
      refine ⟨schoolAfterInsert (addCluster c school ri now)
          (clusterNameOf c (school.lastClusterNumber + 1)) (newCluster school ri now) d now,
        by rw [hsd]; exact lookupEntry_setEntry_self,
        Or.inr ⟨hsp, ?_, ?_, ?_, ?_, rfl, ?_⟩⟩
      · rw [hresp, mkResponse_clusterName]
      · rw [hresp, mkResponse_clusterNumber]
        rfl
      · rw [hresp, mkResponse_clusterName]
        exact hnone
      · rw [hresp, mkResponse_clusterName]
        show lookupEntry _ (setEntry _ (insertDevice (newCluster school ri now) d now) _) = _
        exact lookupEntry_setEntry_self
      · intro q2 hq2
        have hq2k : q2.1 ≠ clusterNameOf c (school.lastClusterNumber + 1) := by
          intro he
          have hnotin := lookupEntry_eq_none_iff.mp hnone q2.2
          apply hnotin
          rw [← he]
          exact hq2
        show lookupEntry q2.1 (setEntry (clusterNameOf c (school.lastClusterNumber + 1))
          (insertDevice (newCluster school ri now) d now)
          (setEntry (clusterNameOf c (school.lastClusterNumber + 1))
            (newCluster school ri now) school.clusters)) = some q2.2
        rw [lookupEntry_setEntry_ne hq2k, lookupEntry_setEntry_ne hq2k]
        exact lookupEntry_of_mem_nodup hswf.keysNodup hq2

theorem claim_C3_capacity_witness :
    Reachable ([] : SchoolData) ∧
    (∀ p ∈ ([] : SchoolData), ∀ q ∈ p.2.clusters,
      q.2.devices.length ≤ MAX_DEVICES_PER_CLUSTER) :=
  ⟨Reachable.empty, (claim_C3_capacity Reachable.empty).1⟩

/-- Claim C7: `POST /api/get-hosts` (both variants) fails exactly when a
required field is the empty (falsy) string, the only error it ever
returns is the 400 validation error, and every well-formed pair succeeds
by construction with a `success = true` payload. -/
theorem claim_C7_validation (sd : SchoolData) (fd : FlatData) (c d : String)
    (ri : Fin 25) (now : Nat) :
    ((∃ e, postGetHosts sd c d ri now = Except.error e) ↔ (c = "" ∨ d = "")) ∧
    (∀ e, postGetHosts sd c d ri now = Except.error e → e = ApiError.validation) ∧
    (c ≠ "" → d ≠ "" → ∃ sd' resp, postGetHosts sd c d ri now = Except.ok (sd', resp) ∧
      resp.success = true) ∧
    ((∃ e, flatGetHosts fd c d now = Except.error e) ↔ (c = "" ∨ d = "")) ∧
    (∀ e, flatGetHosts fd c d now = Except.error e → e = ApiError.validation) ∧
    (c ≠ "" → d ≠ "" → ∃ fd' resp, flatGetHosts fd c d now = Except.ok (fd', resp) ∧
      resp.success = true) := by
  by_cases hcd : c = "" ∨ d = ""
  · rw [postGetHosts, if_pos hcd, flatGetHosts, if_pos hcd]
    refine ⟨⟨fun _ => hcd, fun _ => ⟨ApiError.validation, rfl⟩⟩, ?_, ?_, ?_, ?_, ?_⟩
    · intro e he
      injection he with he2
      exact he2.symm
    · intro hc hd
      exact absurd hcd (by simp [hc, hd])
    · exact ⟨fun _ => hcd, fun _ => ⟨ApiError.validation, rfl⟩⟩
    · intro e he
      injection he with he2
      exact he2.symm
    · intro hc hd
      exact absurd hcd (by simp [hc, hd])
  · have hclu : postGetHosts sd c d ri now
        = Except.ok ((applyNewDevice (findOrCreateCluster sd c d ri now) c d now).1,
            mkResponse c d (findOrCreateCluster sd c d ri now).clusterName
              (applyNewDevice (findOrCreateCluster sd c d ri now) c d now).2.1
              (applyNewDevice (findOrCreateCluster sd c d ri now) c d now).2.2) := by
      rw [postGetHosts, if_neg hcd]
    push_neg at hcd
    refine ⟨?_, ?_, ?_, ?_, ?_, ?_⟩
    · rw [hclu]
      constructor
      · rintro ⟨e, he⟩
        exact absurd he (by simp)
      · intro h
        exact absurd h (by simp [hcd.1, hcd.2])
    · intro e he
      rw [hclu] at he
      exact absurd he (by simp)
    · intro _ _
      exact ⟨_, _, hclu, mkResponse_success _ _ _ _ _⟩
    · rw [flatGetHosts, if_neg (by simp [hcd.1, hcd.2])]
      cases hfi : (theFlatSchool (flatInit fd c) c).devices.findIdx?
          (fun dev => dev.deviceId == d) with
      | some i =>
        constructor
        · rintro ⟨e, he⟩
          exact absurd he (by simp)
        · intro h
          exact absurd h (by simp [hcd.1, hcd.2])
      | none =>
        constructor
        · rintro ⟨e, he⟩
          exact absurd he (by simp)
        · intro h
          exact absurd h (by simp [hcd.1, hcd.2])
    · intro e he
      rw [flatGetHosts, if_neg (by simp [hcd.1, hcd.2])] at he
      cases hfi : (theFlatSchool (flatInit fd c) c).devices.findIdx?
          (fun dev => dev.deviceId == d) with
      | some i =>
        rw [hfi] at he
        exact absurd he (by simp)
      | none =>
        rw [hfi] at he
        exact absurd he (by simp)
    · intro _ _
      rw [flatGetHosts, if_neg (by simp [hcd.1, hcd.2])]
      cases hfi : (theFlatSchool (flatInit fd c) c).devices.findIdx?
          (fun dev => dev.deviceId == d) with
      | some i => exact ⟨_, _, rfl, mkFlatResponse_success _ _ _⟩
      | none => exact ⟨_, _, rfl, mkFlatResponse_success _ _ _⟩

theorem claim_C7_validation_witness :
    (codeA ≠ "" ∧ devX ≠ "" ∧
      ∃ sd' resp, postGetHosts [] codeA devX 0 0 = Except.ok (sd', resp) ∧
        resp.success = true) ∧
    (∃ e, postGetHosts [] "" devX 0 0 = Except.error e) :=
  ⟨⟨by decide, by decide,
    (claim_C7_validation [] [] codeA devX 0 0).2.2.1 (by decide) (by decide)⟩,
   (claim_C7_validation [] [] "" devX 0 0).1.mpr (Or.inl rfl)⟩

/-- Claim C8: `DELETE /api/school/:schoolCode` removes the whole school
entry when it exists (other schools untouched) and fails with NotFound
when absent, leaving the state unchanged; after a successful reset the
school query returns NotFound and the next placement for that code starts
role assignment over at `host1` of a fresh cluster 1. -/
theorem claim_C8_reset_roundtrip (sd : SchoolData) (c : String) :
    (∀ school, lookupEntry c sd = some school →
      ∃ sd', resetSchool sd c = Except.ok sd' ∧
        lookupEntry c sd' = none ∧
        (∀ c', c' ≠ c → lookupEntry c' sd' = lookupEntry c' sd) ∧
        getSchool sd' c = Except.error ApiError.notFoundSchool ∧
        (∀ d ri now, c ≠ "" → d ≠ "" →
          ∃ sd'' resp, postGetHosts sd' c d ri now = Except.ok (sd'', resp) ∧
            resp.role = "host1" ∧ resp.positionInCluster = 1 ∧
            resp.hostDeviceId = some d ∧ resp.clusterNumber = 1)) ∧
    (lookupEntry c sd = none → resetSchool sd c = Except.error ApiError.notFoundSchool) := by
  constructor
  · intro school hl
    refine ⟨deleteEntry c sd, ?_, lookupEntry_deleteEntry_self,
      fun c' hc' => lookupEntry_deleteEntry_ne hc',
      getSchool_none lookupEntry_deleteEntry_self, ?_⟩
    · rw [resetSchool, if_pos (by simp [hl])]
    · intro d ri now hc hd
      have hfresh := @place_fresh (deleteEntry c sd) c d ri now
        lookupEntry_deleteEntry_self hc hd
      refine ⟨_, _, hfresh, ?_, ?_, ?_, ?_⟩
      · exact (mkResponse_idx0 (findIdx_insert_newCluster emptySchool ri d now)).1
      · rw [mkResponse_position, findIdx_insert_newCluster emptySchool ri d now]
      · exact (mkResponse_idx0 (findIdx_insert_newCluster emptySchool ri d now)).2.1
      · rw [mkResponse_clusterNumber]
        rfl
  · intro hl
    rw [resetSchool, if_neg (by simp [hl])]

theorem claim_C8_reset_roundtrip_witness :
    lookupEntry codeA [(codeA, emptySchool)] = some emptySchool ∧
    (∃ sd', resetSchool [(codeA, emptySchool)] codeA = Except.ok sd' ∧
      lookupEntry codeA sd' = none ∧
      (∀ c', c' ≠ codeA → lookupEntry c' sd' = lookupEntry c' [(codeA, emptySchool)]) ∧
      getSchool sd' codeA = Except.error ApiError.notFoundSchool ∧
      (∀ d ri now, codeA ≠ "" → d ≠ "" →
        ∃ sd'' resp, postGetHosts sd' codeA d ri now = Except.ok (sd'', resp) ∧
          resp.role = "host1" ∧ resp.positionInCluster = 1 ∧
          resp.hostDeviceId = some d ∧ resp.clusterNumber = 1)) ∧
    lookupEntry codeB [(codeA, emptySchool)] = none ∧
    resetSchool [(codeA, emptySchool)] codeB = Except.error ApiError.notFoundSchool :=
  ⟨by decide,
   (claim_C8_reset_roundtrip [(codeA, emptySchool)] codeA).1 emptySchool (by decide),
   by decide,
   (claim_C8_reset_roundtrip [(codeA, emptySchool)] codeB).2 (by decide)⟩

/-- Claim C5: in every reachable clustered state every school's
`totalDevices` equals the sum of its clusters' device-list lengths; a
placement increments the counter by exactly one for an unseen device and
leaves the whole state unchanged for a seen one, and a cluster reset
decrements it by the removed cluster's device count. -/
theorem claim_C5_count_consistency {sd : SchoolData} (hr : Reachable sd) :
    (∀ p ∈ sd,
      p.2.totalDevices = (p.2.clusters.map (fun q => (q.2.devices.length : Int))).sum) ∧
    (∀ c d ri now sd' resp school, lookupEntry c sd = some school →
      postGetHosts sd c d ri now = Except.ok (sd', resp) →
      ((∀ q ∈ school.clusters, ∀ dev ∈ q.2.devices, dev.deviceId ≠ d) →
        ∀ school', lookupEntry c sd' = some school' →
          school'.totalDevices = school.totalDevices + 1) ∧
      ((∃ q ∈ school.clusters, ∃ dev ∈ q.2.devices, dev.deviceId = d) → sd' = sd)) ∧
    (∀ c numParam sd' school cl, lookupEntry c sd = some school →
      lookupEntry (c ++ "_" ++ numParam) school.clusters = some cl →
      resetCluster sd c numParam = Except.ok sd' →
      ∀ school', lookupEntry c sd' = some school' →
        school'.totalDevices = school.totalDevices - cl.devices.length) := by
  have hwf := reachable_wf hr
  refine ⟨?_, ?_, ?_⟩
  · intro p hp
    exact (hwf p hp).countEq
  · intro c d ri now sd' resp school hl h
    obtain ⟨school1, hl1, _, hsame, hinc⟩ := place_school_facts h hl
    constructor
    · intro hnew school' hl'
      rw [hl1] at hl'
      injection hl' with hl'
      rw [← hl']
      exact hinc hnew
    · intro hex
      exact (hsame hex).1
  · intro c numParam sd' school cl hl hcl h school' hl'
    obtain ⟨school1, hl1, hcount, _, _, _⟩ := resetCluster_facts h hl hcl
    rw [hl1] at hl'
    injection hl' with hl'
    rw [← hl']
    exact hcount

theorem claim_C5_count_consistency_witness :
    Reachable ([] : SchoolData) ∧
    (∀ p ∈ ([] : SchoolData),
      p.2.totalDevices = (p.2.clusters.map (fun q => (q.2.devices.length : Int))).sum) :=
  ⟨Reachable.empty, (claim_C5_count_consistency Reachable.empty).1⟩

/-- Cluster numbers within a school never repeat: two stored clusters with
the same number are the same entry. -/
lemma SchoolWF.numbersNodup {c : String} {s : School} (h : SchoolWF c s) :
    (s.clusters.map (fun q => q.2.clusterNumber)).Nodup :=
  h.numbersSorted.imp (fun hij => Nat.ne_of_lt hij)

lemma entry_eq_of_number_eq {c : String} {s : School} (h : SchoolWF c s)
    {q q' : String × Cluster} (hq : q ∈ s.clusters) (hq' : q' ∈ s.clusters)
    (hn : q.2.clusterNumber = q'.2.clusterNumber) : q = q' :=
  List.inj_on_of_nodup_map h.numbersNodup hq hq' hn

/-- One successful mutating operation of the clustered variant. -/
inductive Step : SchoolData → SchoolData → Prop where
  | place (c d : String) (ri : Fin 25) (now : Nat) {sd sd' : SchoolData}
      {resp : HostsResponse} :
      postGetHosts sd c d ri now = Except.ok (sd', resp) → Step sd sd'
  | resetS (c : String) {sd sd' : SchoolData} :
      resetSchool sd c = Except.ok sd' → Step sd sd'
  | resetC (c numParam : String) {sd sd' : SchoolData} :
      resetCluster sd c numParam = Except.ok sd' → Step sd sd'

/-- Chains of mutating operations along which the school entry of code `c`
is present after every step, i.e. the school is never deleted. -/
inductive StepsKeeping (c : String) : SchoolData → SchoolData → Prop where
  | refl {sd : SchoolData} : StepsKeeping c sd sd
  | tail {sd sd1 sd2 : SchoolData} : StepsKeeping c sd sd1 → Step sd1 sd2 →
      (lookupEntry c sd2).isSome = true → StepsKeeping c sd sd2

lemma step_reachable {sd sd' : SchoolData} (hr : Reachable sd) (h : Step sd sd') :
    Reachable sd' := by
  cases h with
  | place c d ri now hp => exact Reachable.place hr hp
  | resetS c hp => exact Reachable.resetS hr hp
  | resetC c numParam hp => exact Reachable.resetC hr hp

lemma stepsKeeping_reachable {c : String} {sd sd' : SchoolData} (hr : Reachable sd)
    (h : StepsKeeping c sd sd') : Reachable sd' := by
  induction h with
  | refl => exact hr
  | tail _ hst _ ih => exact step_reachable ih hst

/-- If school `c` has no cluster numbered `m` and `m` is at most
`lastClusterNumber`, one further operation that keeps the school around
preserves both facts: in-place updates keep every cluster number, and a
created cluster takes the strictly larger number `lastClusterNumber + 1`. -/
lemma step_keeps_missing_number {sd' sd'' : SchoolData} {c : String} {m : Nat}
    (hst : Step sd' sd'') (hpresent : (lookupEntry c sd'').isSome = true)
    {school' : School} (hl' : lookupEntry c sd' = some school')
    (hle : m ≤ school'.lastClusterNumber)
    (hnone : ∀ q ∈ school'.clusters, q.2.clusterNumber ≠ m) :
    ∃ school'', lookupEntry c sd'' = some school'' ∧ m ≤ school''.lastClusterNumber ∧
      ∀ q ∈ school''.clusters, q.2.clusterNumber ≠ m := by
  cases hst with
  | place c2 d ri now hp =>
    by_cases hcc : c2 = c
    · subst hcc
      obtain ⟨hc, hd, ho⟩ := place_cases hp
      have hinit : initSchool sd' c2 = sd' := initSchool_of_some hl'
      have hts : theSchool (initSchool sd' c2) c2 = school' := by
        rw [hinit]
        exact theSchool_of_some hl'
      rcases ho with ⟨q, hdc, hsd, _⟩ | ⟨hdc, ⟨q, hsp, hsd, _⟩ | ⟨hsp, hsd, _⟩⟩
      · rw [hsd, hinit]
        exact ⟨school', hl', hle, hnone⟩
      · rw [hts] at hsp hsd
        refine ⟨schoolAfterInsert school' q.1 q.2 d now,
          by rw [hsd]; exact lookupEntry_setEntry_self, hle, ?_⟩
        intro q' hq'
        rcases mem_setEntry hq' with heq | ⟨hm2, _⟩
        · rw [heq]
          show (insertDevice q.2 d now).clusterNumber ≠ m
          rw [clusterNumber_insertDevice]
          exact hnone q (List.mem_of_find?_eq_some hsp)
        · exact hnone q' hm2
      · rw [hts] at hsd
        refine ⟨schoolAfterInsert (addCluster c2 school' ri now)
            (clusterNameOf c2 (school'.lastClusterNumber + 1))
            (newCluster school' ri now) d now,
          by rw [hsd]; exact lookupEntry_setEntry_self, ?_, ?_⟩
        · show m ≤ school'.lastClusterNumber + 1
          omega
        · intro q' hq'
          rcases mem_setEntry hq' with heq | ⟨hm2, _⟩
          · rw [heq]
            show (insertDevice (newCluster school' ri now) d now).clusterNumber ≠ m
            rw [clusterNumber_insertDevice]
            show school'.lastClusterNumber + 1 ≠ m
            omega
          · rcases mem_setEntry hm2 with heq2 | ⟨hm3, _⟩
            · rw [heq2]
              show (newCluster school' ri now).clusterNumber ≠ m
              show school'.lastClusterNumber + 1 ≠ m
              omega
            · exact hnone q' hm3
    · refine ⟨school', ?_, hle, hnone⟩
      rw [place_frame hp (fun he => hcc he.symm)]
      exact hl'
  | resetS c2 hp =>
    obtain ⟨_, hsd⟩ := resetSchool_ok hp
    by_cases hcc : c2 = c
    · subst hcc
      rw [hsd, lookupEntry_deleteEntry_self] at hpresent
      simp at hpresent
    · refine ⟨school', ?_, hle, hnone⟩
      rw [hsd, lookupEntry_deleteEntry_ne (fun he => hcc he.symm)]
      exact hl'
  | resetC c2 numParam2 hp =>
    obtain ⟨school0, cl0, hl0, hcl0, hsd⟩ := resetCluster_ok hp
    by_cases hcc : c2 = c
    · subst hcc
      rw [hl'] at hl0
      injection hl0 with heq
      subst heq
      refine ⟨{ school' with
          totalDevices := school'.totalDevices - cl0.devices.length,
          clusters := deleteEntry (c2 ++ "_" ++ numParam2) school'.clusters },
        by rw [hsd]; exact lookupEntry_setEntry_self, hle, ?_⟩
      intro q' hq'
      exact hnone q' (mem_deleteEntry hq').1
    · refine ⟨school', ?_, hle, hnone⟩
      rw [hsd, lookupEntry_setEntry_ne (fun he => hcc he.symm)]
      exact hl'

/-- The missing-number invariant carried along any operation chain that
keeps the school alive. -/
lemma stepsKeeping_missing_number {c : String} {m : Nat} {sd1 sd2 : SchoolData}
    (hsk : StepsKeeping c sd1 sd2) {school1 : School}
    (hl1 : lookupEntry c sd1 = some school1)
    (hle : m ≤ school1.lastClusterNumber)
    (hnone : ∀ q ∈ school1.clusters, q.2.clusterNumber ≠ m) :
    ∃ school2, lookupEntry c sd2 = some school2 ∧ m ≤ school2.lastClusterNumber ∧
      ∀ q ∈ school2.clusters, q.2.clusterNumber ≠ m := by
  induction hsk with
  | refl => exact ⟨school1, hl1, hle, hnone⟩
  | tail _ hst hpres ih =>
    obtain ⟨school', hl', hle', hnone'⟩ := ih
    exact step_keeps_missing_number hst hpres hl' hle' hnone'

/-- A placement either creates no cluster — `lastClusterNumber` unchanged
and every resulting cluster keeps a pre-existing name and number — or it
creates exactly one, taking the fresh name and number
`lastClusterNumber + 1`, absent from the school before the call. -/
lemma place_creation_cases {sd : SchoolData} {c d : String} {ri : Fin 25} {now : Nat}
    {sd' : SchoolData} {resp : HostsResponse} (hwf : StateWF sd)
    (h : postGetHosts sd c d ri now = Except.ok (sd', resp))
    {school school' : School} (hl : lookupEntry c sd = some school)
    (hl' : lookupEntry c sd' = some school') :
    (school'.lastClusterNumber = school.lastClusterNumber ∧
      ∀ q ∈ school'.clusters, ∃ q0 ∈ school.clusters,
        q.1 = q0.1 ∧ q.2.clusterNumber = q0.2.clusterNumber) ∨
    (school'.lastClusterNumber = school.lastClusterNumber + 1 ∧
      resp.clusterName = clusterNameOf c (school.lastClusterNumber + 1) ∧
      resp.clusterNumber = school.lastClusterNumber + 1 ∧
      lookupEntry resp.clusterName school.clusters = none ∧
      lookupEntry resp.clusterName school'.clusters
        = some (insertDevice (newCluster school ri now) d now)) := by
  obtain ⟨hc, hd, ho⟩ := place_cases h
  have hinit : initSchool sd c = sd := initSchool_of_some hl
  have hts : theSchool (initSchool sd c) c = school := by
    rw [hinit]
    exact theSchool_of_some hl
  have hswf : SchoolWF c school := hwf.lookup hl
  rcases ho with ⟨q, hdc, hsd, hresp⟩ | ⟨hdc, ⟨q, hsp, hsd, hresp⟩ | ⟨hsp, hsd, hresp⟩⟩
  · left
    rw [hsd, hinit, hl] at hl'
    injection hl' with hl'
    subst hl'
    exact ⟨rfl, fun q' hq' => ⟨q', hq', rfl, rfl⟩⟩
  · left
    rw [hts] at hdc hsp hsd hresp
    rw [hsd, lookupEntry_setEntry_self] at hl'
    injection hl' with hl'
    subst hl'
    refine ⟨rfl, ?_⟩
    intro q' hq'
    rcases mem_setEntry hq' with heq | ⟨hm, _⟩
    · refine ⟨q, List.mem_of_find?_eq_some hsp, ?_, ?_⟩
      · rw [heq]
      · rw [heq]
        exact clusterNumber_insertDevice q.2 d now
    · exact ⟨q', hm, rfl, rfl⟩
  · right
    rw [hts] at hdc hsp hsd hresp
    rw [hsd, lookupEntry_setEntry_self] at hl'
    injection hl' with hl'
    subst hl'
    refine ⟨rfl, ?_, ?_, ?_, ?_⟩
    · rw [hresp, mkResponse_clusterName]
    · rw [hresp, mkResponse_clusterNumber]
      rfl
    · rw [hresp, mkResponse_clusterName]
      exact lookup_newName_none hswf
    · rw [hresp, mkResponse_clusterName]
      show lookupEntry _ (setEntry _ (insertDevice (newCluster school ri now) d now) _) = _
      exact lookupEntry_setEntry_self

/-- Claim C9: cluster numbers are never reused while a school exists — in
every reachable state each school's cluster numbers are strictly
increasing in creation order (hence distinct), bounded by
`lastClusterNumber`, and determine the cluster names; `lastClusterNumber`
never decreases under placement and is untouched by cluster reset, and it
is incremented exactly when a cluster is created, the new cluster taking
the previously absent name and number `lastClusterNumber + 1`; therefore,
once a cluster is deleted by cluster reset, no cluster of that school in
any later state reached without deleting the school — in particular no
later-created cluster — ever carries the deleted cluster's number or its
`schoolCode_clusterNumber` name; numbering restarts at 1 only after the
whole school entry is deleted. -/
theorem claim_C9_cluster_numbers {sd : SchoolData} (hr : Reachable sd) :
    (∀ p ∈ sd, (p.2.clusters.map (fun q => q.2.clusterNumber)).Pairwise (· < ·) ∧
      ∀ q ∈ p.2.clusters, q.2.clusterNumber ≤ p.2.lastClusterNumber ∧
        q.1 = clusterNameOf p.1 q.2.clusterNumber) ∧
    (∀ c d ri now sd' resp school school',
      postGetHosts sd c d ri now = Except.ok (sd', resp) →
      lookupEntry c sd = some school → lookupEntry c sd' = some school' →
      school.lastClusterNumber ≤ school'.lastClusterNumber) ∧
    (∀ c numParam sd' school school',
      resetCluster sd c numParam = Except.ok sd' →
      lookupEntry c sd = some school → lookupEntry c sd' = some school' →
      school'.lastClusterNumber = school.lastClusterNumber) ∧
    (∀ c d ri now sd' resp school school',
      postGetHosts sd c d ri now = Except.ok (sd', resp) →
      lookupEntry c sd = some school → lookupEntry c sd' = some school' →
      ((school'.lastClusterNumber = school.lastClusterNumber ∧
        ∀ q ∈ school'.clusters, ∃ q0 ∈ school.clusters,
          q.1 = q0.1 ∧ q.2.clusterNumber = q0.2.clusterNumber) ∨
       (school'.lastClusterNumber = school.lastClusterNumber + 1 ∧
        resp.clusterName = clusterNameOf c (school.lastClusterNumber + 1) ∧
        resp.clusterNumber = school.lastClusterNumber + 1 ∧
        lookupEntry resp.clusterName school.clusters = none ∧
        lookupEntry resp.clusterName school'.clusters
          = some (insertDevice (newCluster school ri now) d now)))) ∧
    (∀ c numParam sd1 school cl,
      lookupEntry c sd = some school →
      lookupEntry (c ++ "_" ++ numParam) school.clusters = some cl →
      resetCluster sd c numParam = Except.ok sd1 →
      ∀ sd2, StepsKeeping c sd1 sd2 →
        ∀ school2, lookupEntry c sd2 = some school2 →
          ∀ q ∈ school2.clusters,
            q.2.clusterNumber ≠ cl.clusterNumber ∧
            q.1 ≠ c ++ "_" ++ numParam ∧
            q.1 ≠ clusterNameOf c cl.clusterNumber) ∧
    (∀ c d ri now sd' resp, lookupEntry c sd = none →
      postGetHosts sd c d ri now = Except.ok (sd', resp) → resp.clusterNumber = 1) := by
  have hwf := reachable_wf hr
  refine ⟨?_, ?_, ?_, ?_, ?_, ?_⟩
  · intro p hp
    refine ⟨(hwf p hp).numbersSorted, ?_⟩
    intro q hq
    exact ⟨(hwf p hp).numbersLe q hq, (hwf p hp).namesEq q hq⟩
  · intro c d ri now sd' resp school school' h hl hl'
    obtain ⟨school1, hl1, hle, _, _⟩ := place_school_facts h hl
    rw [hl1] at hl'
    injection hl' with hl'
    rw [← hl']
    exact hle
  · intro c numParam sd' school school' h hl hl'
    obtain ⟨school0, cl0, hl0, hcl0, hsd⟩ := resetCluster_ok h
    rw [hl0] at hl
    injection hl with hl
    subst hl
    rw [hsd, lookupEntry_setEntry_self] at hl'
    injection hl' with hl'
    rw [← hl']
  · intro c d ri now sd' resp school school' h hl hl'
    exact place_creation_cases hwf h hl hl'
  · intro c numParam sd1 school cl hl hcl hreset sd2 hsk school2 hl2 q hq
    have hswf : SchoolWF c school := hwf.lookup hl
    have hclmem : (c ++ "_" ++ numParam, cl) ∈ school.clusters := mem_of_lookupEntry hcl
    have hname : c ++ "_" ++ numParam = clusterNameOf c cl.clusterNumber :=
      hswf.namesEq _ hclmem
    obtain ⟨school0, cl0, hl0, hcl0, hsd⟩ := resetCluster_ok hreset
    rw [hl] at hl0
    injection hl0 with heq
    subst heq
    rw [hcl] at hcl0
    injection hcl0 with heq2
    subst heq2
    have hl1 : lookupEntry c sd1 = some
        { school with
          totalDevices := school.totalDevices - cl.devices.length,
          clusters := deleteEntry (c ++ "_" ++ numParam) school.clusters } := by
      rw [hsd]
      exact lookupEntry_setEntry_self
    have hle1 : cl.clusterNumber ≤ ({ school with
        totalDevices := school.totalDevices - cl.devices.length,
        clusters := deleteEntry (c ++ "_" ++ numParam) school.clusters } :
        School).lastClusterNumber := hswf.numbersLe _ hclmem
    have hnone1 : ∀ q1 ∈ ({ school with
        totalDevices := school.totalDevices - cl.devices.length,
        clusters := deleteEntry (c ++ "_" ++ numParam) school.clusters } :
        School).clusters, q1.2.clusterNumber ≠ cl.clusterNumber := by
      intro q1 hq1 hnum
      have hmem := mem_deleteEntry hq1
      have hq1eq : q1 = (c ++ "_" ++ numParam, cl) :=
        entry_eq_of_number_eq hswf hmem.1 hclmem hnum
      exact hmem.2 (by rw [hq1eq])
    obtain ⟨school2b, hl2b, hle2, hnone2⟩ :=
      stepsKeeping_missing_number hsk hl1 hle1 hnone1
    rw [hl2b] at hl2
    injection hl2 with heq3
    subst heq3
    have hr2 : Reachable sd2 := stepsKeeping_reachable (Reachable.resetC hr hreset) hsk
    have hswf2 : SchoolWF c school2b := (reachable_wf hr2).lookup hl2b
    have hqname := hswf2.namesEq q hq
    refine ⟨hnone2 q hq, ?_, ?_⟩
    · rw [hname, hqname]
      intro he
      exact hnone2 q hq (clusterNameOf_inj he)
    · rw [hqname]
      intro he
      exact hnone2 q hq (clusterNameOf_inj he)
  · intro c d ri now sd' resp hl h
    rw [place_fresh hl (place_cases h).1 (place_cases h).2.1] at h
    injection h with h2
    injection h2 with _ hresp
    rw [← hresp, mkResponse_clusterNumber]
    rfl

theorem claim_C9_cluster_numbers_witness :
    Reachable ([] : SchoolData) ∧
    (∀ p ∈ ([] : SchoolData), (p.2.clusters.map (fun q => q.2.clusterNumber)).Pairwise (· < ·) ∧
      ∀ q ∈ p.2.clusters, q.2.clusterNumber ≤ p.2.lastClusterNumber ∧
        q.1 = clusterNameOf p.1 q.2.clusterNumber) :=
  ⟨Reachable.empty, (claim_C9_cluster_numbers Reachable.empty).1⟩

/-- Claim C10: a cluster's frequency is assigned once, at creation, from
the fixed 25-entry channel list; placements (into this or any cluster),
cluster resets of other clusters and school resets of other schools never
change a surviving cluster's stored frequency; and both the placement
response and the cluster query report exactly the stored value. -/
theorem claim_C10_frequency_write_once {sd : SchoolData} (hr : Reachable sd) :
    (∀ p ∈ sd, ∀ q ∈ p.2.clusters, q.2.frequency ∈ FREQUENCY_CHANNELS) ∧
    (∀ c d ri now sd' resp, postGetHosts sd c d ri now = Except.ok (sd', resp) →
      (∀ c' school school' name cl cl',
        lookupEntry c' sd = some school → lookupEntry c' sd' = some school' →
        lookupEntry name school.clusters = some cl →
        lookupEntry name school'.clusters = some cl' →
        cl'.frequency = cl.frequency) ∧
      (∃ school cluster, lookupEntry c sd' = some school ∧
        lookupEntry resp.clusterName school.clusters = some cluster ∧
        resp.frequency = cluster.frequency)) ∧
    (∀ c numParam sd', resetCluster sd c numParam = Except.ok sd' →
      ∀ c' school school' name cl cl',
        lookupEntry c' sd = some school → lookupEntry c' sd' = some school' →
        lookupEntry name school.clusters = some cl →
        lookupEntry name school'.clusters = some cl' →
        cl'.frequency = cl.frequency) ∧
    (∀ c0 sd', resetSchool sd c0 = Except.ok sd' →
      ∀ c', c' ≠ c0 → lookupEntry c' sd' = lookupEntry c' sd) ∧
    (∀ c numParam info, getCluster sd c numParam = Except.ok info →
      ∃ school cluster, lookupEntry c sd = some school ∧
        lookupEntry (c ++ "_" ++ numParam) school.clusters = some cluster ∧
        info.frequency = cluster.frequency) := by
  have hwf := reachable_wf hr
  refine ⟨?_, ?_, ?_, ?_, ?_⟩
  · intro p hp q hq
    exact ((hwf p hp).clustersWF q hq).freqMem
  · intro c d ri now sd' resp h
    constructor
    · intro c' school school' name cl cl' hl hl' hcl hcl'
      by_cases hcc : c' = c
      · subst hcc
        obtain ⟨hc, hd, ho⟩ := place_cases h
        have hinit : initSchool sd c' = sd := initSchool_of_some hl
        have hts : theSchool (initSchool sd c') c' = school := by
          rw [hinit]
          exact theSchool_of_some hl
        have hswf : SchoolWF c' school := hwf.lookup hl
        rcases ho with ⟨q, hdc, hsd, _⟩ | ⟨hdc, ⟨q, hsp, hsd, _⟩ | ⟨hsp, hsd, _⟩⟩
        · rw [hsd, hinit, hl] at hl'
          injection hl' with hl'
          subst hl'
          rw [hcl] at hcl'
          injection hcl' with hcl'
          rw [hcl']
        · rw [hts] at hdc hsp hsd
          rw [hsd, lookupEntry_setEntry_self] at hl'
          injection hl' with hl'
          subst hl'
          simp only [schoolAfterInsert] at hcl'
          by_cases hn : name = q.1
          · have hq2 : lookupEntry name school.clusters = some q.2 := by
              rw [hn]
              exact lookupEntry_of_mem_nodup hswf.keysNodup (List.mem_of_find?_eq_some hsp)
            rw [hq2] at hcl
            injection hcl with hcl
            rw [hn, lookupEntry_setEntry_self] at hcl'
            injection hcl' with hcl'
            rw [← hcl', ← hcl]
            rfl
          · rw [lookupEntry_setEntry_ne hn, hcl] at hcl'
            injection hcl' with hcl'
            rw [hcl']
        · rw [hts] at hdc hsp hsd
          rw [hsd, lookupEntry_setEntry_self] at hl'
          injection hl' with hl'
          subst hl'
          simp only [schoolAfterInsert, addCluster] at hcl'
          by_cases hn : name = clusterNameOf c' (school.lastClusterNumber + 1)
          · rw [hn, lookup_newName_none hswf] at hcl
            exact absurd hcl (by simp)
          · rw [lookupEntry_setEntry_ne hn, lookupEntry_setEntry_ne hn, hcl] at hcl'
            injection hcl' with hcl'
            rw [hcl']
      · rw [place_frame h hcc, hl] at hl'
        injection hl' with hl'
        subst hl'
        rw [hcl] at hcl'
        injection hcl' with hcl'
        rw [hcl']
    · obtain ⟨school, cluster, hl', hcl', hresp⟩ := place_resolved hwf h
      exact ⟨school, cluster, hl', hcl', by rw [hresp, mkResponse_frequency]⟩
  · intro c numParam sd' h c' school school' name cl cl' hl hl' hcl hcl'
    obtain ⟨school0, cl0, hl0, hcl0, hsd⟩ := resetCluster_ok h
    by_cases hcc : c' = c
    · subst hcc
      rw [hl] at hl0
      injection hl0 with heq
      subst heq
      rw [hsd, lookupEntry_setEntry_self] at hl'
      injection hl' with heq'
      subst heq'
      simp only at hcl'
      by_cases hn : name = c' ++ "_" ++ numParam
      · rw [hn, lookupEntry_deleteEntry_self] at hcl'
        exact absurd hcl' (by simp)
      · rw [lookupEntry_deleteEntry_ne hn, hcl] at hcl'
        injection hcl' with hcl'
        rw [hcl']
    · rw [hsd, lookupEntry_setEntry_ne hcc, hl] at hl'
      injection hl' with hl'
      subst hl'
      rw [hcl] at hcl'
      injection hcl' with hcl'
      rw [hcl']
  · intro c0 sd' h c' hc'
    obtain ⟨_, hsd⟩ := resetSchool_ok h
    rw [hsd]
    exact lookupEntry_deleteEntry_ne hc'
  · intro c numParam info h
    obtain ⟨school, cluster, hl, hcl, hfreq, _, _⟩ := getCluster_ok h
    exact ⟨school, cluster, hl, hcl, hfreq⟩

theorem claim_C10_frequency_write_once_witness :
    Reachable ([] : SchoolData) ∧
    (∀ p ∈ ([] : SchoolData), ∀ q ∈ p.2.clusters,
      q.2.frequency ∈ FREQUENCY_CHANNELS) :=
  ⟨Reachable.empty, (claim_C10_frequency_write_once Reachable.empty).1⟩

/-- Claim C1: for every reachable state of either variant and every
placement call with non-empty arguments, the returned role and the host
slots are determined solely by the 0-based index of the device in the
resolved device list, exactly per the table (index 0: host1/self;
1: host2/hosts 0,self; 2: host3/hosts 0,1,self; at least 3:
client/hosts 0,1,2); unpopulated slots are `none`, never an error; and
entries of all other school codes are untouched by the call, so the Nth
distinct device of a school keeps its role under interleaving. -/
theorem claim_C1_role_table {sd : SchoolData} {fd : FlatData} {c d : String}
    {ri : Fin 25} {now : Nat}
    (hr : Reachable sd) (hf : FlatReachable fd) (hc : c ≠ "") (hd : d ≠ "") :
    (∃ sd' resp, postGetHosts sd c d ri now = Except.ok (sd', resp) ∧
      ∃ school cluster, lookupEntry c sd' = some school ∧
        lookupEntry resp.clusterName school.clusters = some cluster ∧
        (∀ c', c' ≠ c → lookupEntry c' sd' = lookupEntry c' sd) ∧
        resp.positionInCluster
          = cluster.devices.findIdx (fun dev => dev.deviceId == d) + 1 ∧
        (cluster.devices.findIdx (fun dev => dev.deviceId == d) = 0 →
          resp.role = "host1" ∧ resp.hostDeviceId = some d ∧
          resp.host2DeviceId = none ∧ resp.host3DeviceId = none) ∧
        (cluster.devices.findIdx (fun dev => dev.deviceId == d) = 1 →
          resp.role = "host2" ∧ resp.hostDeviceId = cluster.hosts.get? 0 ∧
          resp.host2DeviceId = some d ∧ resp.host3DeviceId = none) ∧
        (cluster.devices.findIdx (fun dev => dev.deviceId == d) = 2 →
          resp.role = "host3" ∧ resp.hostDeviceId = cluster.hosts.get? 0 ∧
          resp.host2DeviceId = cluster.hosts.get? 1 ∧ resp.host3DeviceId = some d) ∧
        (3 ≤ cluster.devices.findIdx (fun dev => dev.deviceId == d) →
          resp.role = "client" ∧ resp.hostDeviceId = cluster.hosts.get? 0 ∧
          resp.host2DeviceId = cluster.hosts.get? 1 ∧
          resp.host3DeviceId = cluster.hosts.get? 2) ∧
        resp.clusterHosts
          = (cluster.hosts.get? 0, cluster.hosts.get? 1, cluster.hosts.get? 2)) ∧
    (∃ fd' resp, flatGetHosts fd c d now = Except.ok (fd', resp) ∧
      ∃ school, lookupEntry c fd' = some school ∧
        (∀ c', c' ≠ c → lookupEntry c' fd' = lookupEntry c' fd) ∧
        resp.position = school.devices.findIdx (fun dev => dev.deviceId == d) + 1 ∧
        (school.devices.findIdx (fun dev => dev.deviceId == d) = 0 →
          resp.role = "host1" ∧ resp.hostDeviceId = some d ∧
          resp.host2DeviceId = none ∧ resp.host3DeviceId = none) ∧
        (school.devices.findIdx (fun dev => dev.deviceId == d) = 1 →
          resp.role = "host2" ∧ resp.hostDeviceId = school.hosts.get? 0 ∧
          resp.host2DeviceId = some d ∧ resp.host3DeviceId = none) ∧
        (school.devices.findIdx (fun dev => dev.deviceId == d) = 2 →
          resp.role = "host3" ∧ resp.hostDeviceId = school.hosts.get? 0 ∧
          resp.host2DeviceId = school.hosts.get? 1 ∧ resp.host3DeviceId = some d) ∧
        (3 ≤ school.devices.findIdx (fun dev => dev.deviceId == d) →
          resp.role = "client" ∧ resp.hostDeviceId = school.hosts.get? 0 ∧
          resp.host2DeviceId = school.hosts.get? 1 ∧
          resp.host3DeviceId = school.hosts.get? 2) ∧
        resp.hosts = (school.hosts.get? 0, school.hosts.get? 1, school.hosts.get? 2)) := by
  have hwf := reachable_wf hr
  have hfwf := flat_reachable_wf hf
  constructor
  · obtain ⟨sd', resp, h⟩ : ∃ sd' resp, postGetHosts sd c d ri now
        = Except.ok (sd', resp) := by
      rw [postGetHosts, if_neg (by simp [hc, hd])]
      exact ⟨_, _, rfl⟩
    obtain ⟨school, cluster, hl', hcl', hresp⟩ := place_resolved hwf h
    have hwf' := place_wf hwf h
    have hclwf : ClusterWF cluster :=
      ((hwf'.lookup hl').clustersWF _ (mem_of_lookupEntry hcl'))
    refine ⟨sd', resp, h, school, cluster, hl', hcl', fun c' hc' => place_frame h hc',
      ?_, ?_, ?_, ?_, ?_, ?_⟩
    · rw [hresp, mkResponse_position]
    · intro hi
      rw [hresp]
      exact mkResponse_idx0 hi
    · intro hi
      rw [hresp]
      exact mkResponse_idx1 hi
    · intro hi
      rw [hresp]
      exact mkResponse_idx2 hi
    · intro hi
      rw [hresp]
      exact mkResponse_client hi
    · rw [hresp, mkResponse_clusterHosts, hclwf.jsOrNull_get 0, hclwf.jsOrNull_get 1,
        hclwf.jsOrNull_get 2]
  · obtain ⟨fd', resp, h⟩ : ∃ fd' resp, flatGetHosts fd c d now
        = Except.ok (fd', resp) := by
      rw [flatGetHosts, if_neg (by simp [hc, hd])]
      cases hfi : (theFlatSchool (flatInit fd c) c).devices.findIdx?
          (fun dev => dev.deviceId == d) with
      | some i => exact ⟨_, _, rfl⟩
      | none => exact ⟨_, _, rfl⟩
    obtain ⟨school, hl', hresp⟩ := flat_resolved h
    have hswf : FlatSchoolWF school := (flat_place_wf hfwf h).lookupFlat hl'
    refine ⟨fd', resp, h, school, hl', fun c' hc' => flat_frame h hc',
      ?_, ?_, ?_, ?_, ?_, ?_⟩
    · rw [hresp, mkFlatResponse_position]
    · intro hi
      rw [hresp]
      exact mkFlatResponse_idx0 hi
    · intro hi
      rw [hresp]
      exact mkFlatResponse_idx1 hi
    · intro hi
      rw [hresp]
      exact mkFlatResponse_idx2 hi
    · intro hi
      rw [hresp]
      exact mkFlatResponse_client hi
    · rw [hresp, mkFlatResponse_hosts, hswf.jsOrNullGetFlat 0, hswf.jsOrNullGetFlat 1,
        hswf.jsOrNullGetFlat 2]

theorem claim_C1_role_table_witness :
    Reachable ([] : SchoolData) ∧ FlatReachable ([] : FlatData) ∧
    codeA ≠ "" ∧ devX ≠ "" ∧
    ((∃ sd' resp, postGetHosts ([] : SchoolData) codeA devX 0 0 = Except.ok (sd', resp) ∧
      ∃ school cluster, lookupEntry codeA sd' = some school ∧
        lookupEntry resp.clusterName school.clusters = some cluster ∧
        (∀ c', c' ≠ codeA → lookupEntry c' sd' = lookupEntry c' ([] : SchoolData)) ∧
        resp.positionInCluster
          = cluster.devices.findIdx (fun dev => dev.deviceId == devX) + 1 ∧
        (cluster.devices.findIdx (fun dev => dev.deviceId == devX) = 0 →
          resp.role = "host1" ∧ resp.hostDeviceId = some devX ∧
          resp.host2DeviceId = none ∧ resp.host3DeviceId = none) ∧
        (cluster.devices.findIdx (fun dev => dev.deviceId == devX) = 1 →
          resp.role = "host2" ∧ resp.hostDeviceId = cluster.hosts.get? 0 ∧
          resp.host2DeviceId = some devX ∧ resp.host3DeviceId = none) ∧
        (cluster.devices.findIdx (fun dev => dev.deviceId == devX) = 2 →
          resp.role = "host3" ∧ resp.hostDeviceId = cluster.hosts.get? 0 ∧
          resp.host2DeviceId = cluster.hosts.get? 1 ∧ resp.host3DeviceId = some devX) ∧
        (3 ≤ cluster.devices.findIdx (fun dev => dev.deviceId == devX) →
          resp.role = "client" ∧ resp.hostDeviceId = cluster.hosts.get? 0 ∧
          resp.host2DeviceId = cluster.hosts.get? 1 ∧
          resp.host3DeviceId = cluster.hosts.get? 2) ∧
        resp.clusterHosts
          = (cluster.hosts.get? 0, cluster.hosts.get? 1, cluster.hosts.get? 2)) ∧
     (∃ fd' resp, flatGetHosts ([] : FlatData) codeA devX 0 = Except.ok (fd', resp) ∧
      ∃ school, lookupEntry codeA fd' = some school ∧
        (∀ c', c' ≠ codeA → lookupEntry c' fd' = lookupEntry c' ([] : FlatData)) ∧
        resp.position = school.devices.findIdx (fun dev => dev.deviceId == devX) + 1 ∧
        (school.devices.findIdx (fun dev => dev.deviceId == devX) = 0 →
          resp.role = "host1" ∧ resp.hostDeviceId = some devX ∧
          resp.host2DeviceId = none ∧ resp.host3DeviceId = none) ∧
        (school.devices.findIdx (fun dev => dev.deviceId == devX) = 1 →
          resp.role = "host2" ∧ resp.hostDeviceId = school.hosts.get? 0 ∧
          resp.host2DeviceId = some devX ∧ resp.host3DeviceId = none) ∧
        (school.devices.findIdx (fun dev => dev.deviceId == devX) = 2 →
          resp.role = "host3" ∧ resp.hostDeviceId = school.hosts.get? 0 ∧
          resp.host2DeviceId = school.hosts.get? 1 ∧ resp.host3DeviceId = some devX) ∧
        (3 ≤ school.devices.findIdx (fun dev => dev.deviceId == devX) →
          resp.role = "client" ∧ resp.hostDeviceId = school.hosts.get? 0 ∧
          resp.host2DeviceId = school.hosts.get? 1 ∧
          resp.host3DeviceId = school.hosts.get? 2) ∧
        resp.hosts = (school.hosts.get? 0, school.hosts.get? 1, school.hosts.get? 2))) :=
  ⟨Reachable.empty, FlatReachable.empty, by decide, by decide,
   claim_C1_role_table Reachable.empty FlatReachable.empty (by decide) (by decide)⟩

/-- Claim C2: placement is idempotent in both variants — the first call
succeeds, a second call for the same pair (under any oracle values)
returns the identical state and identical response (so role, position and
host list agree), and the school's device count grows by at most one
across the two calls. -/
theorem claim_C2_idempotent {sd : SchoolData} {fd : FlatData} {c d : String}
    {ri : Fin 25} {now : Nat}
    (hr : Reachable sd) (hf : FlatReachable fd) (hc : c ≠ "") (hd : d ≠ "") :
    (∃ sd1 r1, postGetHosts sd c d ri now = Except.ok (sd1, r1) ∧
      (∀ ri2 now2, postGetHosts sd1 c d ri2 now2 = Except.ok (sd1, r1)) ∧
      (∀ school school1, lookupEntry c sd = some school →
        lookupEntry c sd1 = some school1 →
        school1.totalDevices ≤ school.totalDevices + 1) ∧
      (lookupEntry c sd = none → ∀ school1, lookupEntry c sd1 = some school1 →
        school1.totalDevices ≤ 1)) ∧
    (∃ fd1 r1, flatGetHosts fd c d now = Except.ok (fd1, r1) ∧
      (∀ now2, flatGetHosts fd1 c d now2 = Except.ok (fd1, r1)) ∧
      (∀ school school1, lookupEntry c fd = some school →
        lookupEntry c fd1 = some school1 →
        school1.devices.length ≤ school.devices.length + 1) ∧
      (lookupEntry c fd = none → ∀ school1, lookupEntry c fd1 = some school1 →
        school1.devices.length ≤ 1)) := by
  constructor
  · obtain ⟨sd1, r1, h⟩ : ∃ sd1 r1, postGetHosts sd c d ri now
        = Except.ok (sd1, r1) := by
      rw [postGetHosts, if_neg (by simp [hc, hd])]
      exact ⟨_, _, rfl⟩
    refine ⟨sd1, r1, h, place_idem h, ?_, ?_⟩
    · intro school school1 hl hl1
      by_cases hex : ∃ q ∈ school.clusters, ∃ dev ∈ q.2.devices, dev.deviceId = d
      · obtain ⟨school', hl', _, hsame, _⟩ := place_school_facts h hl
        rw [hl1] at hl'
        injection hl' with hl'
        rw [hl', (hsame hex).2]
        omega
      · push_neg at hex
        obtain ⟨school', hl', _, _, hinc⟩ := place_school_facts h hl
        rw [hl1] at hl'
        injection hl' with hl'
        rw [hl', hinc hex]
    · intro hnone school1 hl1
      rw [place_fresh hnone hc hd] at h
      injection h with h2
      injection h2 with hsd _
      rw [← hsd, lookupEntry_setEntry_self] at hl1
      injection hl1 with hl1
      rw [← hl1]
      show (0 : Int) + 1 ≤ 1
      omega
  · obtain ⟨fd1, r1, h⟩ : ∃ fd1 r1, flatGetHosts fd c d now = Except.ok (fd1, r1) := by
      rw [flatGetHosts, if_neg (by simp [hc, hd])]
      cases hfi : (theFlatSchool (flatInit fd c) c).devices.findIdx?
          (fun dev => dev.deviceId == d) with
      | some i => exact ⟨_, _, rfl⟩
      | none => exact ⟨_, _, rfl⟩
    refine ⟨fd1, r1, h, flat_idem h, ?_, ?_⟩
    · intro school school1 hl hl1
      obtain ⟨_, _, ho⟩ := flat_cases h
      have hinit : flatInit fd c = fd := flatInit_of_some hl
      have hts : theFlatSchool (flatInit fd c) c = school := by
        rw [hinit]
        exact theFlatSchool_of_some hl
      rcases ho with ⟨_, hsd, _⟩ | ⟨_, hsd, _⟩
      · rw [hsd, hinit, hl] at hl1
        injection hl1 with hl1
        rw [← hl1]
        omega
      · rw [hts] at hsd
        rw [hsd, lookupEntry_setEntry_self] at hl1
        injection hl1 with hl1
        rw [← hl1]
        show (school.devices ++ [Device.mk d now]).length ≤ school.devices.length + 1
        simp
    · intro hnone school1 hl1
      rw [flat_place_fresh hc hd hnone] at h
      injection h with h2
      injection h2 with hsd _
      rw [← hsd, lookupEntry_setEntry_self] at hl1
      injection hl1 with hl1
      rw [← hl1]
      show (emptyFlatSchool.devices ++ [Device.mk d now]).length ≤ 1
      simp [emptyFlatSchool]

theorem claim_C2_idempotent_witness :
    Reachable ([] : SchoolData) ∧ FlatReachable ([] : FlatData) ∧
    codeA ≠ "" ∧ devX ≠ "" ∧
    ((∃ sd1 r1, postGetHosts ([] : SchoolData) codeA devX 0 0 = Except.ok (sd1, r1) ∧
      (∀ ri2 now2, postGetHosts sd1 codeA devX ri2 now2 = Except.ok (sd1, r1)) ∧
      (∀ school school1, lookupEntry codeA ([] : SchoolData) = some school →
        lookupEntry codeA sd1 = some school1 →
        school1.totalDevices ≤ school.totalDevices + 1) ∧
      (lookupEntry codeA ([] : SchoolData) = none →
        ∀ school1, lookupEntry codeA sd1 = some school1 →
        school1.totalDevices ≤ 1)) ∧
     (∃ fd1 r1, flatGetHosts ([] : FlatData) codeA devX 0 = Except.ok (fd1, r1) ∧
      (∀ now2, flatGetHosts fd1 codeA devX now2 = Except.ok (fd1, r1)) ∧
      (∀ school school1, lookupEntry codeA ([] : FlatData) = some school →
        lookupEntry codeA fd1 = some school1 →
        school1.devices.length ≤ school.devices.length + 1) ∧
      (lookupEntry codeA ([] : FlatData) = none →
        ∀ school1, lookupEntry codeA fd1 = some school1 →
        school1.devices.length ≤ 1))) :=
  ⟨Reachable.empty, FlatReachable.empty, by decide, by decide,
   claim_C2_idempotent Reachable.empty FlatReachable.empty (by decide) (by decide)⟩

set_option synthInstance.maxSize 1000 in
/-- Claim C6, counterexample: running the claimed scenario (register d1,
then d2, then d4 into school "ABC" starting with no such school) returns
role `host3` with `host3DeviceId = d4` for the third call — the code keys
roles on arrival order, so the third distinct device is never a `client`
and the third host slot is filled, contradicting the claimed
`client`/null outcome. -/
theorem claim_C6_counterexample :
    ((((flatGetHosts [] codeABC dev1 0).bind
        (fun x => flatGetHosts x.1 codeABC dev2 1)).bind
        (fun x => flatGetHosts x.1 codeABC dev4 2)).toOption.map
      (fun x => (x.2.role, x.2.position, x.2.host3DeviceId, x.2.hosts)))
      = some ("host3", 3, some dev4, (some dev1, some dev2, some dev4)) ∧
    ¬ ((((flatGetHosts [] codeABC dev1 0).bind
        (fun x => flatGetHosts x.1 codeABC dev2 1)).bind
        (fun x => flatGetHosts x.1 codeABC dev4 2)).toOption.map
      (fun x => (x.2.role, x.2.host3DeviceId)))
      = some ("client", none) := by
  constructor <;> decide

/-- Claim C6, amended: starting from any state with no school "ABC",
registering d1 gives role host1, position 1, hostDeviceId d1; then d2
gives role host2 with host1 still d1; then d4 (d3 never registered) is
the third distinct device, so it gives role host3 — not client — with
host3DeviceId d4 and the full host triad d1, d2, d4. -/
theorem claim_C6_amended {fd : FlatData} (hl : lookupEntry codeABC fd = none)
    (t1 t2 t3 : Nat) :
    ∃ fd1 r1 fd2 r2 fd3 r3,
      flatGetHosts fd codeABC dev1 t1 = Except.ok (fd1, r1) ∧
      flatGetHosts fd1 codeABC dev2 t2 = Except.ok (fd2, r2) ∧
      flatGetHosts fd2 codeABC dev4 t3 = Except.ok (fd3, r3) ∧
      r1.role = "host1" ∧ r1.position = 1 ∧ r1.hostDeviceId = some dev1 ∧
      r2.role = "host2" ∧ r2.position = 2 ∧ r2.hostDeviceId = some dev1 ∧
      r2.host2DeviceId = some dev2 ∧
      r3.role = "host3" ∧ r3.position = 3 ∧ r3.hostDeviceId = some dev1 ∧
      r3.host2DeviceId = some dev2 ∧ r3.host3DeviceId = some dev4 ∧
      r3.hosts = (some dev1, some dev2, some dev4) := by
  have h1 := @flat_place_fresh fd codeABC dev1 t1
    (by decide : codeABC ≠ "") (by decide : dev1 ≠ "") hl
  have hnew1 : ∀ dev ∈ (flatInsert emptyFlatSchool dev1 t1).devices,
      (dev.deviceId == dev2) = false := by
    intro dev hdev
    have hdev' : dev = Device.mk dev1 t1 := by
      simpa [flatInsert, emptyFlatSchool] using hdev
    rw [hdev']
    show (dev1 == dev2) = false
    decide
  have h2 := @flat_place_new (setEntry codeABC (flatInsert emptyFlatSchool dev1 t1)
      (flatInit fd codeABC)) codeABC dev2 t2 (flatInsert emptyFlatSchool dev1 t1)
    (by decide : codeABC ≠ "") (by decide : dev2 ≠ "")
    lookupEntry_setEntry_self hnew1
  have hnew2 : ∀ dev ∈ (flatInsert (flatInsert emptyFlatSchool dev1 t1) dev2 t2).devices,
      (dev.deviceId == dev4) = false := by
    intro dev hdev
    have hdev' : dev = Device.mk dev1 t1 ∨ dev = Device.mk dev2 t2 := by
      simpa [flatInsert, emptyFlatSchool] using hdev
    rcases hdev' with hcase | hcase
    · rw [hcase]
      show (dev1 == dev4) = false
      decide
    · rw [hcase]
      show (dev2 == dev4) = false
      decide
  have h3 := @flat_place_new (setEntry codeABC
      (flatInsert (flatInsert emptyFlatSchool dev1 t1) dev2 t2)
      (setEntry codeABC (flatInsert emptyFlatSchool dev1 t1) (flatInit fd codeABC)))
      codeABC dev4 t3 (flatInsert (flatInsert emptyFlatSchool dev1 t1) dev2 t2)
    (by decide : codeABC ≠ "") (by decide : dev4 ≠ "")
    lookupEntry_setEntry_self hnew2
  have hidx1 : (flatInsert emptyFlatSchool dev1 t1).devices.findIdx
      (fun dev => dev.deviceId == dev1) = 0 := by
    show (([] : List Device) ++ [Device.mk dev1 t1]).findIdx
      (fun dev : Device => dev.deviceId == dev1) = 0
    rw [List.nil_append]
    exact findIdx_singleton_self dev1 t1
  have hidx2 : (flatInsert (flatInsert emptyFlatSchool dev1 t1) dev2 t2).devices.findIdx
      (fun dev => dev.deviceId == dev2) = 1 := by
    show ((flatInsert emptyFlatSchool dev1 t1).devices ++ [Device.mk dev2 t2]).findIdx
      (fun dev : Device => dev.deviceId == dev2) = 1
    rw [findIdx_append_of_all_false hnew1, findIdx_singleton_self dev2 t2]
    simp [flatInsert, emptyFlatSchool]
  have hidx3 : (flatInsert (flatInsert (flatInsert emptyFlatSchool dev1 t1) dev2 t2)
      dev4 t3).devices.findIdx (fun dev => dev.deviceId == dev4) = 2 := by
    show ((flatInsert (flatInsert emptyFlatSchool dev1 t1) dev2 t2).devices
        ++ [Device.mk dev4 t3]).findIdx (fun dev : Device => dev.deviceId == dev4) = 2
    rw [findIdx_append_of_all_false hnew2, findIdx_singleton_self dev4 t3]
    simp [flatInsert, emptyFlatSchool]
  refine ⟨_, _, _, _, _, _, h1, h2, h3, ?_, ?_, ?_, ?_, ?_, ?_, ?_, ?_, ?_, ?_, ?_, ?_, ?_⟩
  · exact (mkFlatResponse_idx0 hidx1).1
  · rw [mkFlatResponse_position, hidx1]
  · exact (mkFlatResponse_idx0 hidx1).2.1
  · exact (mkFlatResponse_idx1 hidx2).1
  · rw [mkFlatResponse_position, hidx2]
  · rw [(mkFlatResponse_idx1 hidx2).2.1]
    rfl
  · exact (mkFlatResponse_idx1 hidx2).2.2.1
  · exact (mkFlatResponse_idx2 hidx3).1
  · rw [mkFlatResponse_position, hidx3]
  · rw [(mkFlatResponse_idx2 hidx3).2.1]
    rfl
  · rw [(mkFlatResponse_idx2 hidx3).2.2.1]
    rfl
  · exact (mkFlatResponse_idx2 hidx3).2.2.2
  · rw [mkFlatResponse_hosts]
    rfl

theorem claim_C6_amended_witness :
    lookupEntry codeABC ([] : FlatData) = none ∧
    (∃ fd1 r1 fd2 r2 fd3 r3,
      flatGetHosts ([] : FlatData) codeABC dev1 10 = Except.ok (fd1, r1) ∧
      flatGetHosts fd1 codeABC dev2 11 = Except.ok (fd2, r2) ∧
      flatGetHosts fd2 codeABC dev4 12 = Except.ok (fd3, r3) ∧
      r1.role = "host1" ∧ r1.position = 1 ∧ r1.hostDeviceId = some dev1 ∧
      r2.role = "host2" ∧ r2.position = 2 ∧ r2.hostDeviceId = some dev1 ∧
      r2.host2DeviceId = some dev2 ∧
      r3.role = "host3" ∧ r3.position = 3 ∧ r3.hostDeviceId = some dev1 ∧
      r3.host2DeviceId = some dev2 ∧ r3.host3DeviceId = some dev4 ∧
      r3.hosts = (some dev1, some dev2, some dev4)) :=
  ⟨rfl, @claim_C6_amended ([] : FlatData) rfl 10 11 12⟩
